import Mathlib

/-!
# Verification of the nautobot_mcp conversational tool-orchestration engine

A shallow embedding of the core of the `nautobot_mcp` repository:

* the multi-round function-calling Agent Loop of
  `services/chat-ui/app.py` (`chat`),
* the Tool Dispatcher of `services/chat-ui/mcp_client.py`
  (`MCPClient.invoke_tool`, `invoke_tool_on_server`),
* the Conversation Store operations of `services/chat-ui/app.py`
  (`clear_chat`, `new_chat`, `_generate_conversation_title`),
* the Fallback Heuristic Responder of
  `services/mcp-nautobot/mcp_server/tools/llm_chat.py`
  (`process_with_llm_intelligence`, `handle_prefix_query`,
  `extract_location_name`) together with the prefixes tool
  (`services/mcp-nautobot/mcp_server/tools/prefixes.py`).

External effects (completion-API responses, HTTP dispatch outcomes, the
GraphQL client result) are supplied by oracles / explicit parameters;
Python dictionaries are embedded as JSON values; Python exceptions are
embedded as `Except`; wall-clock timestamps carried by the source records
are omitted, since no behaviour of the program depends on them.
-/

/-- The ASCII apostrophe, used when source messages quote values. -/
def apos : String := Char.toString (Char.ofNat 39)

/-- JSON values, the shallow embedding of the Python dict/list/str/num/bool
values the program passes around.  Objects keep their fields in insertion
order, as Python dicts do. -/
inductive Json where
  | null : Json
  | bool (b : Bool) : Json
  | num (n : Int) : Json
  | str (s : String) : Json
  | arr (elems : List Json) : Json
  | obj (fields : List (String × Json)) : Json

instance : Inhabited Json := ⟨Json.null⟩

mutual

/-- Structural equality of JSON values, embedding Python `==`.  (Python dict
equality ignores key order; in every comparison the embedded code performs,
the compared values are scalars, where the two notions agree.) -/
def Json.beq : Json → Json → Bool
  | .null, .null => true
  | .bool a, .bool b => a == b
  | .num a, .num b => a == b
  | .str a, .str b => a == b
  | .arr xs, .arr ys => Json.beqList xs ys
  | .obj fs, .obj gs => Json.beqFields fs gs
  | _, _ => false

/-- Elementwise equality of JSON arrays. -/
def Json.beqList : List Json → List Json → Bool
  | [], [] => true
  | x :: xs, y :: ys => Json.beq x y && Json.beqList xs ys
  | _, _ => false

/-- Elementwise equality of JSON object field lists. -/
def Json.beqFields : List (String × Json) → List (String × Json) → Bool
  | [], [] => true
  | (k, v) :: fs, (l, w) :: gs => k == l && Json.beq v w && Json.beqFields fs gs
  | _, _ => false

end

instance : BEq Json := ⟨Json.beq⟩

/-- Field lookup in a JSON object (first binding wins, like a Python dict
whose keys are unique); `none` for missing keys and non-objects. -/
def Json.getField : Json → String → Option Json
  | .obj fields, k => (fields.find? (fun p => p.1 == k)).map (fun p => p.2)
  | _, _ => none

/-- Python `d.get(k, default)`. -/
def Json.pyGet (j : Json) (k : String) (d : Json) : Json :=
  (j.getField k).getD d

/-- Python truthiness of a JSON value (`if value:`). -/
def Json.truthy : Json → Bool
  | .null => false
  | .bool b => b
  | .num n => n != 0
  | .str s => s != ""
  | .arr xs => !xs.isEmpty
  | .obj fs => !fs.isEmpty

/-- Python `d[k]` on a dict: the value, or a raised `KeyError` whose
`str()` is the quoted key. -/
def Json.pyItem (j : Json) (k : String) : Except String Json :=
  match j.getField k with
  | some v => Except.ok v
  | none => Except.error (apos ++ k ++ apos)

/-- Python `str()` of a JSON scalar as used in the f-strings of the source
(only strings and numbers ever reach those f-strings). -/
def Json.pyStr : Json → String
  | .str s => s
  | .num n => toString n
  | .bool b => if b then "True" else "False"
  | .null => "None"
  | .arr _ => "<list>"
  | .obj _ => "<dict>"

/-! ## Tool Dispatcher — `services/chat-ui/mcp_client.py`

The HTTP layer (`requests.post` + `raise_for_status` + `.json()`) either
yields a parsed JSON body or raises a `requests.exceptions.RequestException`;
it is embedded as an `Except String Json` outcome.  The dispatcher catching
that exception class is what makes it total. -/

/-- `MCPClient.invoke_tool` (mcp_client.py lines 63-106): posts
`{"tool_name": ..., "args": ...}` and returns the parsed body; a
`RequestException` is caught and turned into `{"error": str(e)}`.
The tool name and arguments only shape the outbound request body, which
the network oracle already accounts for. -/
def MCPClient_invoke_tool (tool_name : String) (args : Json)
    (netOutcome : Except String Json) : Json :=
  match netOutcome with
  | .ok body => body
  | .error e => Json.obj [("error", Json.str e)]

/-- `invoke_tool_on_server` (mcp_client.py lines 203-215): looks the server
name up in the configured `MCP_SERVERS` (modelled by their names) and
delegates to `MCPClient.invoke_tool`; an unknown server yields
`{"error": "Server '<name>' not found"}`. -/
def invoke_tool_on_server (servers : List String) (server_name : String)
    (tool_name : String) (args : Json) (netOutcome : Except String Json) : Json :=
  match servers.find? (fun s => s == server_name) with
  | none => Json.obj [("error", Json.str ("Server " ++ apos ++ server_name ++ apos ++ " not found"))]
  | some _ => MCPClient_invoke_tool tool_name args netOutcome

/-- C3: For every tool name and argument mapping, the Tool Dispatcher's
invoke operation always returns a JSON-compatible value and never raises
(totality of `invoke_tool_on_server` in the embedding): either the server
is configured and the HTTP call succeeded, in which case the downstream
body is returned unchanged, or the returned mapping carries an `"error"`
key with a message. -/
theorem c3_dispatcher_total (servers : List String) (server_name tool_name : String)
    (args : Json) (netOutcome : Except String Json) :
    (∃ body, netOutcome = Except.ok body ∧
        (servers.find? (fun s => s == server_name)).isSome ∧
        invoke_tool_on_server servers server_name tool_name args netOutcome = body) ∨
    (∃ m, (invoke_tool_on_server servers server_name tool_name args netOutcome).getField
        ("error") = some (Json.str m)) := by
  unfold invoke_tool_on_server
  cases hfind : servers.find? (fun s => s == server_name) with
  | none =>
      refine Or.inr ⟨"Server " ++ apos ++ server_name ++ apos ++ " not found", ?_⟩
      simp [Json.getField]
  | some s =>
      cases netOutcome with
      | ok body => exact Or.inl ⟨body, rfl, by simp [hfind], rfl⟩
      | error e => exact Or.inr ⟨e, by simp [MCPClient_invoke_tool, Json.getField]⟩

/-! ## Data model — Conversation, Turn, ToolInvocation (spec section 3)

`Turn` and `ToolInvocation` mirror the dictionaries `chat` builds in
`services/chat-ui/app.py`; the `timestamp` fields are omitted (nothing in
the program reads them back). -/

/-- One chat message: the `{"role", "text", "citations"}` dictionaries of
`chat_history`.  User turns carry no citations. -/
structure Turn where
  role : String
  text : String
  citations : List Json := []

/-- One entry of `tool_history` (app.py lines 366-373), minus `timestamp`. -/
structure ToolInvocation where
  tool : String
  args : Json
  result : Json
  round : Nat
  tool_index : Nat

/-! ## Agent Loop — `chat` in `services/chat-ui/app.py` (lines 199-504)

The completion API and the tool backend are oracles: the k-th completion
call (in execution order) returns `env.completions k`, and the k-th
dispatcher invocation returns `env.dispatch k`.  The message list sent to
the completion API only shapes the oracle's input and is folded into the
oracle itself; what the embedding tracks is every observable action:
completion calls (with their `tools` flag), dispatcher invocations, and
the records appended to `tool_history` / `citations`. -/

/-- One tool call requested by the model: `tc.function.name` plus its
parsed arguments.  `arguments = none` embeds a `json.loads` failure on
`fn.arguments`, which app.py degrades to `{}` (lines 354-358). -/
structure ToolCallReq where
  id : String
  name : String
  arguments : Option Json

/-- One completion-API response: optional text content plus the requested
tool calls (empty list when the model requested none). -/
structure ModelMsg where
  content : Option String
  toolCalls : List ToolCallReq

/-- The external world of one chat turn. -/
structure Env where
  completions : Nat → ModelMsg
  dispatch : Nat → Json

/-- `max_tool_rounds = 5` (app.py line 343). -/
def maxToolRounds : Nat := 5

/-- State threaded through a chat turn: the counters select the next
oracle answers, the logs record every observable action. -/
structure AgentState where
  round : Nat
  citations : List Json
  toolHistory : List ToolInvocation
  dispatchLog : List (String × Json)
  completionLog : List Bool
  nextCompletion : Nat
  nextDispatch : Nat

/-- One `client.chat.completions.create` call; the boolean records whether
tools were passed (`tool_choice="auto"`) or disabled (no `tools=` at all,
app.py lines 407 and 414). -/
def askModel (env : Env) (withTools : Bool) (st : AgentState) : ModelMsg × AgentState :=
  (env.completions st.nextCompletion,
   { st with nextCompletion := st.nextCompletion + 1,
             completionLog := st.completionLog ++ [withTools] })

/-- The tool names `execute_tool_with_status` (app.py lines 17-64)
dispatches to the MCP server; any other name short-circuits to an
`{"error": "Unknown tool ..."}` result without a dispatcher call. -/
def knownToolNames : List String :=
  ["get_prefixes_by_location_enhanced", "get_devices_by_location",
   "get_devices_by_location_and_role", "get_interfaces_by_device",
   "get_circuits_by_location"]

/-- `execute_tool_with_status` (app.py lines 17-64): known tools invoke
the dispatcher (logged), unknown tools yield an error mapping. -/
def execute_tool_with_status (env : Env) (name : String) (args : Json)
    (st : AgentState) : Json × AgentState :=
  if name ∈ knownToolNames then
    (env.dispatch st.nextDispatch,
     { st with nextDispatch := st.nextDispatch + 1,
               dispatchLog := st.dispatchLog ++ [(name, args)] })
  else
    (Json.obj [("error", Json.str ("Unknown tool " ++ name))], st)

/-- One iteration of the per-round tool loop (app.py lines 349-382), for
the i-th requested call: parse arguments (malformed -> `{}`), execute,
unwrap a `result` envelope if present, append a `ToolInvocation` tagged
with the current round and call index, and append the
`{"tool", "args", "round"}` citation.
`unwrapResult` is `api_result.get('result', api_result)` (app.py line 364). -/
def unwrapResult (api_result : Json) : Json :=
  match api_result.getField ("result") with
  | some v => v
  | none => api_result

def stepToolCall (env : Env) (tc : ToolCallReq) (i : Nat) (st : AgentState) : AgentState :=
  let args := tc.arguments.getD (Json.obj [])
  let exec := execute_tool_with_status env tc.name args st
  let tool_result := unwrapResult exec.1
  let inv : ToolInvocation :=
    { tool := tc.name, args := args, result := tool_result,
      round := st.round, tool_index := i + 1 }
  let cit : Json := Json.obj
    [("tool", Json.str tc.name), ("args", args), ("round", Json.num st.round)]
  { exec.2 with toolHistory := exec.2.toolHistory ++ [inv],
                citations := exec.2.citations ++ [cit] }

/-- The per-round tool loop (app.py lines 349-382), over all requested
calls in the order the model returned them. -/
def processCalls (env : Env) : List ToolCallReq → Nat → AgentState → AgentState
  | [], _, st => st
  | tc :: rest, i, st => processCalls env rest (i + 1) (stepToolCall env tc i st)

/-- `tool_call_round += 1` (app.py line 399). -/
def bumpRound (st : AgentState) : AgentState := { st with round := st.round + 1 }

/-- The `while msg.tool_calls and tool_call_round <= max_tool_rounds` loop
(app.py lines 345-409).  Returns `assistant_response` (still `none` when
the loop was exited without assigning it) and the final state.  Fuel is
`maxToolRounds + 1`, enough because the round counter grows with every
recursive call and the loop exits once it passes the bound.  Within one
iteration: execute all requested calls (`processCalls`); below the bound,
consult the model again with tools enabled and either finish (no further
tool calls) or enter the next round; at the bound, one final completion
call with tools disabled.  `askModel` is pure, so its repeated occurrences
denote the single call the source makes. -/
def agentLoopGo (env : Env) : Nat → List ToolCallReq → AgentState →
    Option String × AgentState
  | 0, _, st => (none, st)
  | _ + 1, [], st => (none, st)
  | fuel + 1, tc :: rest, st =>
    if maxToolRounds < st.round then (none, st)
    else if (processCalls env (tc :: rest) 0 st).round < maxToolRounds then
      match (askModel env true (processCalls env (tc :: rest) 0 st)).1.toolCalls with
      | [] =>
          (some ((askModel env true (processCalls env (tc :: rest) 0 st)).1.content.getD ""),
           (askModel env true (processCalls env (tc :: rest) 0 st)).2)
      | tc2 :: rest2 =>
          agentLoopGo env fuel (tc2 :: rest2)
            (bumpRound (askModel env true (processCalls env (tc :: rest) 0 st)).2)
    else
      (some ((askModel env false (processCalls env (tc :: rest) 0 st)).1.content.getD ""),
       (askModel env false (processCalls env (tc :: rest) 0 st)).2)

/-- app.py lines 412-416: `if not assistant_response:` one more completion
call without tools. -/
def extraFinalCall (env : Env) (st : AgentState) : Option String × AgentState :=
  let fr := askModel env false st
  (some (fr.1.content.getD ""), fr.2)

/-- app.py line 421: the canned reply used when the first response carries
no tool calls and empty/absent content. -/
def noToolsDirectFallback : String :=
  "I don" ++ apos ++ "t have any specific tools to help with that request. " ++
  "Please try asking about network devices, prefixes, or locations using the available tools."

/-- app.py line 462. -/
def openaiNotConfiguredMsg : String :=
  "OpenAI is not configured. Please set the OPENAI_API_KEY environment variable to use this chat interface."

/-- app.py line 465. -/
def apologyMsg : String :=
  "I apologize, but I encountered an issue processing your request. Please try again."

/-- The `response_data` payload built for one already-stored tool result
(app.py lines 439-455): each branch requires a truthy `success` flag. -/
def respDataFromEntry (fmt : Json) (tool_result : Json) : Option Json :=
  if Json.beq fmt (Json.str ("csv")) && (tool_result.pyGet ("success") Json.null).truthy then
    some (Json.obj [("format", Json.str ("csv")),
      ("data", tool_result.pyGet ("data") (Json.arr [])),
      ("message", Json.str ("Data available for CSV export"))])
  else if Json.beq fmt (Json.str ("table")) && (tool_result.pyGet ("success") Json.null).truthy then
    some (Json.obj [("format", Json.str ("table")),
      ("data", tool_result.pyGet ("data") (Json.arr []))])
  else if Json.beq fmt (Json.str ("dataframe")) && (tool_result.pyGet ("success") Json.null).truthy then
    some (Json.obj [("format", Json.str ("dataframe")),
      ("analysis", tool_result.pyGet ("summary") (Json.obj []))])
  else none

/-- The secondary enrichment (app.py lines 425-457): scan the citations for
the first `get_prefixes_by_location_enhanced` one whose arguments request
csv/table/dataframe; for it, scan `tool_history` for the first entry with
the same tool and `location_name` and build `response_data` from that
stored result.  No dispatcher is consulted — the function has no access to
one. -/
def buildResponseData : List Json → List ToolInvocation → Option Json
  | [], _ => none
  | c :: rest, hist =>
    if Json.beq (c.pyGet ("tool") Json.null) (Json.str ("get_prefixes_by_location_enhanced")) then
      let fmt := (c.pyGet ("args") (Json.obj [])).pyGet ("format") (Json.str ("json"))
      if Json.beq fmt (Json.str ("csv")) || Json.beq fmt (Json.str ("table")) ||
          Json.beq fmt (Json.str ("dataframe")) then
        let loc := (c.pyGet ("args") (Json.obj [])).pyGet ("location_name") (Json.str (""))
        match hist.find? (fun e =>
            e.tool == "get_prefixes_by_location_enhanced" &&
            Json.beq (e.args.pyGet ("location_name") Json.null) loc) with
        | some e => respDataFromEntry fmt e.result
        | none => none
      else buildResponseData rest hist
    else buildResponseData rest hist

/-- What one chat turn produces and does: the persisted assistant turn,
the response payload, and the logs of every external action. -/
structure ChatResult where
  turn : Turn
  citations : List Json
  toolHistory : List ToolInvocation
  responseData : Option Json
  completionLog : List Bool
  dispatchLog : List (String × Json)

/-- The tail of `chat` (app.py lines 425-504): enrichment, the
`assistant_response is None` substitution, and the assistant turn
construction. -/
def chatFinish (useOpenai : Bool) (assistantResponse : Option String)
    (citations : List Json) (st : AgentState) : ChatResult :=
  let responseData := buildResponseData citations st.toolHistory
  let text := match assistantResponse with
    | some a => a
    | none => if !useOpenai then openaiNotConfiguredMsg else apologyMsg
  { turn := { role := "assistant", text := text, citations := citations },
    citations := citations, toolHistory := st.toolHistory,
    responseData := responseData, completionLog := st.completionLog,
    dispatchLog := st.dispatchLog }

/-- The steps after the while-loop in the tool-call branch (app.py lines
411-504): `if not assistant_response:` one more tools-disabled completion
call (line 414) catches both a never-assigned and an empty response, then
the turn is finished. -/
def finishAfterLoop (env : Env) (r : Option String × AgentState) : ChatResult :=
  match r.1 with
  | some a =>
      if a = "" then
        chatFinish true (extraFinalCall env r.2).1
          (extraFinalCall env r.2).2.citations (extraFinalCall env r.2).2
      else chatFinish true (some a) r.2.citations r.2
  | none =>
      chatFinish true (extraFinalCall env r.2).1
        (extraFinalCall env r.2).2.citations (extraFinalCall env r.2).2

/-- One whole chat turn (app.py lines 199-504), given the oracles and the
session's stored `tool_history`.  The conversation-history replay (lines
229-316) only shapes the outbound message payload, which the completion
oracle already accounts for. -/
def chatTurn (env : Env) (useOpenai : Bool) (toolHistory0 : List ToolInvocation) : ChatResult :=
  let st0 : AgentState :=
    { round := 1, citations := [], toolHistory := toolHistory0, dispatchLog := [],
      completionLog := [], nextCompletion := 0, nextDispatch := 0 }
  if useOpenai then
    let fst := askModel env true st0
    match fst.1.toolCalls with
    | [] =>
      let text := match fst.1.content with
        | some c => if c = "" then noToolsDirectFallback else c
        | none => noToolsDirectFallback
      chatFinish useOpenai (some text) [] fst.2
    | _ :: _ =>
      finishAfterLoop env (agentLoopGo env (maxToolRounds + 1) fst.1.toolCalls fst.2)
  else
    chatFinish useOpenai none [] st0

/-! ## Bookkeeping lemmas about the Agent Loop -/

/-- The citation shape (`{"tool", "args", "round"}`) corresponding to a
stored `ToolInvocation`. -/
def invCitation (inv : ToolInvocation) : Json :=
  Json.obj [("tool", Json.str inv.tool), ("args", inv.args), ("round", Json.num inv.round)]

theorem execute_tool_fields (env : Env) (name : String) (args : Json) (st : AgentState) :
    (execute_tool_with_status env name args st).2.round = st.round ∧
    (execute_tool_with_status env name args st).2.nextCompletion = st.nextCompletion ∧
    (execute_tool_with_status env name args st).2.completionLog = st.completionLog ∧
    (execute_tool_with_status env name args st).2.citations = st.citations ∧
    (execute_tool_with_status env name args st).2.toolHistory = st.toolHistory ∧
    (execute_tool_with_status env name args st).2.dispatchLog.length ≤ st.dispatchLog.length + 1 := by
  unfold execute_tool_with_status
  split <;> simp

/-- One loop iteration appends exactly one `ToolInvocation` and the
matching citation, tagged with the current round, with at most one
dispatcher invocation; the round counter and the completion-call
bookkeeping are untouched. -/
theorem stepToolCall_spec (env : Env) (tc : ToolCallReq) (i : Nat) (st : AgentState) :
    ∃ inv : ToolInvocation,
      (stepToolCall env tc i st).toolHistory = st.toolHistory ++ [inv] ∧
      (stepToolCall env tc i st).citations = st.citations ++ [invCitation inv] ∧
      inv.round = st.round ∧
      inv.tool = tc.name ∧
      (stepToolCall env tc i st).round = st.round ∧
      (stepToolCall env tc i st).nextCompletion = st.nextCompletion ∧
      (stepToolCall env tc i st).completionLog = st.completionLog ∧
      (stepToolCall env tc i st).dispatchLog.length ≤ st.dispatchLog.length + 1 := by
  obtain ⟨hr, hnc, hcl, hc, hh, hd⟩ :=
    execute_tool_fields env tc.name (tc.arguments.getD (Json.obj [])) st
  refine ⟨{ tool := tc.name,
            args := tc.arguments.getD (Json.obj []),
            result := unwrapResult (execute_tool_with_status env tc.name
              (tc.arguments.getD (Json.obj [])) st).1,
            round := st.round,
            tool_index := i + 1 }, ?_, ?_, rfl, rfl, ?_, ?_, ?_, ?_⟩
  · simp [stepToolCall, hh]
  · simp [stepToolCall, hc, invCitation]
  · simp [stepToolCall, hr]
  · simp [stepToolCall, hnc]
  · simp [stepToolCall, hcl]
  · simpa [stepToolCall] using hd

/-- Each round appends one `ToolInvocation` and the matching citation per
requested call, tagged with the current round, and performs at most one
dispatcher invocation per call; the round counter and the completion-call
bookkeeping are untouched. -/
theorem processCalls_spec (env : Env) (l : List ToolCallReq) :
    ∀ (i : Nat) (st : AgentState),
      ∃ new : List ToolInvocation,
        (processCalls env l i st).toolHistory = st.toolHistory ++ new ∧
        (processCalls env l i st).citations = st.citations ++ new.map invCitation ∧
        (∀ inv ∈ new, inv.round = st.round) ∧
        new.length = l.length ∧
        (processCalls env l i st).round = st.round ∧
        (processCalls env l i st).nextCompletion = st.nextCompletion ∧
        (processCalls env l i st).completionLog = st.completionLog ∧
        (processCalls env l i st).dispatchLog.length ≤ st.dispatchLog.length + new.length := by
  induction l with
  | nil =>
      intro i st
      exact ⟨[], by simp [processCalls]⟩
  | cons tc rest ih =>
      intro i st
      simp only [processCalls]
      obtain ⟨hr, hnc, hcl, hc, hh, hd⟩ :=
        execute_tool_fields env tc.name (tc.arguments.getD (Json.obj [])) st
      obtain ⟨inv0, g1, g2, g3, g4, g5, g6, g7, g8⟩ :=
        stepToolCall_spec env tc i st
      obtain ⟨new, h1, h2, h3, h4, h5, h6, h7, h8⟩ := ih (i + 1) (stepToolCall env tc i st)
      refine ⟨inv0 :: new, ?_, ?_, ?_, ?_, ?_, ?_, ?_, ?_⟩
      · rw [h1, g1]; simp
      · rw [h2, g2]; simp
      · intro inv hinv
        rcases List.mem_cons.mp hinv with h | h
        · rw [h]; exact g3
        · rw [h3 inv h, g5]
      · simp [h4]
      · rw [h5, g5]
      · rw [h6, g6]
      · rw [h7, g7]
      · refine le_trans h8 ?_
        simp only [List.length_cons]
        omega

/-- Completion calls touch only the completion bookkeeping. -/
theorem askModel_fields (env : Env) (b : Bool) (st : AgentState) :
    (askModel env b st).2.citations = st.citations ∧
    (askModel env b st).2.toolHistory = st.toolHistory ∧
    (askModel env b st).2.dispatchLog = st.dispatchLog ∧
    (askModel env b st).2.round = st.round ∧
    (askModel env b st).2.nextCompletion = st.nextCompletion + 1 ∧
    (askModel env b st).2.completionLog = st.completionLog ++ [b] ∧
    (askModel env b st).1 = env.completions st.nextCompletion := by
  simp [askModel]

/-- Across the whole while-loop: the tool history is only appended to, the
appended citations mirror the appended invocations one-to-one and in
order, every appended invocation is tagged with a round between the
entry round and the bound, and the dispatcher is invoked at most once per
appended record. -/
theorem agentLoopGo_spec (env : Env) :
    ∀ (fuel : Nat) (tcs : List ToolCallReq) (st : AgentState),
      ∃ new : List ToolInvocation,
        (agentLoopGo env fuel tcs st).2.toolHistory = st.toolHistory ++ new ∧
        (agentLoopGo env fuel tcs st).2.citations = st.citations ++ new.map invCitation ∧
        (∀ inv ∈ new, st.round ≤ inv.round ∧ inv.round ≤ maxToolRounds) ∧
        (agentLoopGo env fuel tcs st).2.dispatchLog.length ≤
          st.dispatchLog.length + new.length := by
  intro fuel
  induction fuel with
  | zero =>
      intro tcs st
      exact ⟨[], by simp [agentLoopGo]⟩
  | succ fuel ih =>
      intro tcs st
      cases tcs with
      | nil => exact ⟨[], by simp [agentLoopGo]⟩
      | cons tc rest =>
        by_cases hb : maxToolRounds < st.round
        · exact ⟨[], by simp [agentLoopGo, hb]⟩
        · obtain ⟨new1, p1, p2, p3, p4, p5, p6, p7, p8⟩ :=
            processCalls_spec env (tc :: rest) 0 st
          have hround : st.round ≤ maxToolRounds := Nat.le_of_not_lt hb
          by_cases hlt : (processCalls env (tc :: rest) 0 st).round < maxToolRounds
          · obtain ⟨a1, a2, a3, a4, a5, a6, a7⟩ :=
              askModel_fields env true (processCalls env (tc :: rest) 0 st)
            cases hfu : (askModel env true (processCalls env (tc :: rest) 0 st)).1.toolCalls with
            | nil =>
                have hres : agentLoopGo env (fuel + 1) (tc :: rest) st =
                    (some ((askModel env true
                        (processCalls env (tc :: rest) 0 st)).1.content.getD ""),
                     (askModel env true (processCalls env (tc :: rest) 0 st)).2) := by
                  simp [agentLoopGo, hb, hlt, hfu]
                refine ⟨new1, ?_, ?_, ?_, ?_⟩
                · rw [hres]; simpa [a2] using p1
                · rw [hres]; simpa [a1] using p2
                · intro inv hinv
                  exact ⟨le_of_eq (p3 inv hinv).symm, (p3 inv hinv) ▸ hround⟩
                · rw [hres]
                  simpa [a3] using p8
            | cons tc2 rest2 =>
                have hres : agentLoopGo env (fuel + 1) (tc :: rest) st =
                    agentLoopGo env fuel (tc2 :: rest2)
                      (bumpRound (askModel env true (processCalls env (tc :: rest) 0 st)).2) := by
                  simp [agentLoopGo, hb, hlt, hfu]
                obtain ⟨new2, q1, q2, q3, q4⟩ := ih (tc2 :: rest2)
                  (bumpRound (askModel env true (processCalls env (tc :: rest) 0 st)).2)
                refine ⟨new1 ++ new2, ?_, ?_, ?_, ?_⟩
                · rw [hres, q1]
                  simp [bumpRound, a2, p1]
                · rw [hres, q2]
                  simp [bumpRound, a1, p2]
                · intro inv hinv
                  rcases List.mem_append.mp hinv with h | h
                  · exact ⟨le_of_eq (p3 inv h).symm, (p3 inv h) ▸ hround⟩
                  · have hq := q3 inv h
                    have hbr : (bumpRound (askModel env true
                        (processCalls env (tc :: rest) 0 st)).2).round = st.round + 1 := by
                      simp [bumpRound, a4, p5]
                    rw [hbr] at hq
                    exact ⟨le_trans (Nat.le_succ _) hq.1, hq.2⟩
                · rw [hres]
                  have hbd : (bumpRound (askModel env true
                      (processCalls env (tc :: rest) 0 st)).2).dispatchLog.length =
                      (processCalls env (tc :: rest) 0 st).dispatchLog.length := by
                    simp [bumpRound, a3]
                  have hq4 := q4
                  rw [hbd] at hq4
                  simp only [List.length_append]
                  omega
          · obtain ⟨b1, b2, b3, b4, b5, b6, b7⟩ :=
              askModel_fields env false (processCalls env (tc :: rest) 0 st)
            have hres : agentLoopGo env (fuel + 1) (tc :: rest) st =
                (some ((askModel env false
                    (processCalls env (tc :: rest) 0 st)).1.content.getD ""),
                 (askModel env false (processCalls env (tc :: rest) 0 st)).2) := by
              simp [agentLoopGo, hb, hlt]
            refine ⟨new1, ?_, ?_, ?_, ?_⟩
            · rw [hres]; simpa [b2] using p1
            · rw [hres]; simpa [b1] using p2
            · intro inv hinv
              exact ⟨le_of_eq (p3 inv hinv).symm, (p3 inv hinv) ▸ hround⟩
            · rw [hres]
              simpa [b3] using p8

/-- When every completion-API response requests at least one tool call,
a loop entered at round `st.round` (with the completion counter in sync,
as `chat` guarantees) executes every round up to the bound — one
tools-enabled completion call per remaining round — then issues exactly
one completion call with tools disabled, uses that call text as the
assistant response, and has recorded a tool invocation tagged with the
bound round. -/
theorem agentLoopGo_allToolCalls (env : Env)
    (hall : ∀ n, (env.completions n).toolCalls ≠ []) :
    ∀ (fuel : Nat) (tcs : List ToolCallReq) (st : AgentState),
      tcs ≠ [] →
      st.round ≤ maxToolRounds →
      st.nextCompletion = st.round →
      fuel = maxToolRounds - st.round + 2 →
      (agentLoopGo env fuel tcs st).1 =
        some ((env.completions maxToolRounds).content.getD "") ∧
      (agentLoopGo env fuel tcs st).2.completionLog =
        st.completionLog ++ List.replicate (maxToolRounds - st.round) true ++ [false] ∧
      (agentLoopGo env fuel tcs st).2.nextCompletion = maxToolRounds + 1 ∧
      (∃ inv ∈ (agentLoopGo env fuel tcs st).2.toolHistory, inv.round = maxToolRounds) := by
  intro fuel
  induction fuel with
  | zero =>
      intro tcs st _ _ _ hfuel
      omega
  | succ n ih =>
      intro tcs st htcs hle hnc hfuel
      cases tcs with
      | nil => exact absurd rfl htcs
      | cons tc rest =>
        have hb : ¬ maxToolRounds < st.round := Nat.not_lt.mpr hle
        obtain ⟨new1, p1, p2, p3, p4, p5, p6, p7, p8⟩ :=
          processCalls_spec env (tc :: rest) 0 st
        by_cases hlt : (processCalls env (tc :: rest) 0 st).round < maxToolRounds
        · obtain ⟨a1, a2, a3, a4, a5, a6, a7⟩ :=
            askModel_fields env true (processCalls env (tc :: rest) 0 st)
          have hidx : (processCalls env (tc :: rest) 0 st).nextCompletion = st.round := by
            rw [p6, hnc]
          cases hfu : (askModel env true (processCalls env (tc :: rest) 0 st)).1.toolCalls with
          | nil =>
              exfalso
              apply hall st.round
              rw [← hidx, ← a7]
              exact hfu
          | cons tc2 rest2 =>
              have hres : agentLoopGo env (n + 1) (tc :: rest) st =
                  agentLoopGo env n (tc2 :: rest2)
                    (bumpRound (askModel env true (processCalls env (tc :: rest) 0 st)).2) := by
                simp [agentLoopGo, hb, hlt, hfu]
              have hbr : (bumpRound (askModel env true
                  (processCalls env (tc :: rest) 0 st)).2).round = st.round + 1 := by
                simp [bumpRound, a4, p5]
              have hbn : (bumpRound (askModel env true
                  (processCalls env (tc :: rest) 0 st)).2).nextCompletion = st.round + 1 := by
                simp [bumpRound, a5, hidx]
              have hstround : st.round < maxToolRounds := by rw [p5] at hlt; exact hlt
              obtain ⟨r1, r2, r3, r4⟩ := ih (tc2 :: rest2)
                (bumpRound (askModel env true (processCalls env (tc :: rest) 0 st)).2)
                (by simp) (by omega) (by rw [hbn, hbr]) (by rw [hbr]; omega)
              refine ⟨by rw [hres]; exact r1, ?_, by rw [hres]; exact r3, by rw [hres]; exact r4⟩
              rw [hres, r2]
              have hcl : (bumpRound (askModel env true
                  (processCalls env (tc :: rest) 0 st)).2).completionLog =
                  st.completionLog ++ [true] := by
                simp [bumpRound, a6, p7]
              rw [hcl, hbr]
              have hrep : List.replicate (maxToolRounds - st.round) true =
                  true :: List.replicate (maxToolRounds - (st.round + 1)) true := by
                have : maxToolRounds - st.round = (maxToolRounds - (st.round + 1)) + 1 := by omega
                rw [this, List.replicate_succ]
              rw [hrep]
              simp
        · have hstround : st.round = maxToolRounds := by
            rw [p5] at hlt; omega
          obtain ⟨b1, b2, b3, b4, b5, b6, b7⟩ :=
            askModel_fields env false (processCalls env (tc :: rest) 0 st)
          have hres : agentLoopGo env (n + 1) (tc :: rest) st =
              (some ((askModel env false
                  (processCalls env (tc :: rest) 0 st)).1.content.getD ""),
               (askModel env false (processCalls env (tc :: rest) 0 st)).2) := by
            simp [agentLoopGo, hb, hlt]
          have hidx : (processCalls env (tc :: rest) 0 st).nextCompletion = maxToolRounds := by
            rw [p6, hnc, hstround]
          refine ⟨?_, ?_, ?_, ?_⟩
          · rw [hres]
            simp only [b7, hidx]
          · rw [hres]
            simp only [b6, p7, hstround]
            simp
          · rw [hres]
            simp only [b5, hidx]
          · rw [hres]
            cases new1 with
            | nil => simp at p4
            | cons inv0 tl =>
                refine ⟨inv0, ?_, ?_⟩
                · rw [b2, p1]
                  simp
                · rw [p3 inv0 (by simp), hstround]

/-- The post-loop steps never touch citations, tool history or the
dispatch log, and the enrichment payload is computed purely from the
final citations and tool history. -/
theorem finishAfterLoop_fields (env : Env) (r : Option String × AgentState) :
    (finishAfterLoop env r).citations = r.2.citations ∧
    (finishAfterLoop env r).turn.citations = r.2.citations ∧
    (finishAfterLoop env r).toolHistory = r.2.toolHistory ∧
    (finishAfterLoop env r).dispatchLog = r.2.dispatchLog ∧
    (finishAfterLoop env r).responseData =
      buildResponseData r.2.citations r.2.toolHistory := by
  cases hr : r.1 with
  | none => simp [finishAfterLoop, hr, chatFinish, extraFinalCall, askModel]
  | some a =>
      by_cases ha : a = "" <;>
        simp [finishAfterLoop, hr, ha, chatFinish, extraFinalCall, askModel]

/-- Frame/correlation facts about a whole chat turn: the tool history is
only appended to; the turn's citations mirror the appended invocations
one-to-one and in order; every appended invocation is tagged with a round
in `1..maxToolRounds`; the dispatcher is invoked at most once per appended
record (in particular the enrichment step invokes nothing); and the
enrichment payload is a pure function of the final citations and tool
history. -/
theorem chatTurn_spec (env : Env) (useOpenai : Bool) (h0 : List ToolInvocation) :
    ∃ new : List ToolInvocation,
      (chatTurn env useOpenai h0).toolHistory = h0 ++ new ∧
      (chatTurn env useOpenai h0).citations = new.map invCitation ∧
      (chatTurn env useOpenai h0).turn.citations = (chatTurn env useOpenai h0).citations ∧
      (∀ inv ∈ new, 1 ≤ inv.round ∧ inv.round ≤ maxToolRounds) ∧
      (chatTurn env useOpenai h0).dispatchLog.length ≤ new.length ∧
      (chatTurn env useOpenai h0).responseData =
        buildResponseData (chatTurn env useOpenai h0).citations
          (chatTurn env useOpenai h0).toolHistory := by
  cases useOpenai with
  | false =>
      exact ⟨[], by simp [chatTurn, chatFinish, buildResponseData]⟩
  | true =>
      have hask : askModel env true
          { round := 1, citations := [], toolHistory := h0, dispatchLog := [],
            completionLog := [], nextCompletion := 0, nextDispatch := 0 } =
          (env.completions 0,
           { round := 1, citations := [], toolHistory := h0, dispatchLog := [],
             completionLog := [true], nextCompletion := 1, nextDispatch := 0 }) := rfl
      cases h : (env.completions 0).toolCalls with
      | nil =>
          refine ⟨[], ?_, ?_, ?_, ?_, ?_, ?_⟩ <;>
            simp [chatTurn, hask, h, chatFinish, buildResponseData]
      | cons tc rest =>
          obtain ⟨new, l1, l2, l3, l4⟩ := agentLoopGo_spec env (maxToolRounds + 1) (tc :: rest)
            { round := 1, citations := [], toolHistory := h0, dispatchLog := [],
              completionLog := [true], nextCompletion := 1, nextDispatch := 0 }
          obtain ⟨f1, f2, f3, f4, f5⟩ := finishAfterLoop_fields env
            (agentLoopGo env (maxToolRounds + 1) (tc :: rest)
              { round := 1, citations := [], toolHistory := h0, dispatchLog := [],
                completionLog := [true], nextCompletion := 1, nextDispatch := 0 })
          have hct : chatTurn env true h0 =
              finishAfterLoop env (agentLoopGo env (maxToolRounds + 1) (tc :: rest)
                { round := 1, citations := [], toolHistory := h0, dispatchLog := [],
                  completionLog := [true], nextCompletion := 1, nextDispatch := 0 }) := by
            simp [chatTurn, hask, h]
          refine ⟨new, ?_, ?_, ?_, ?_, ?_, ?_⟩
          · rw [hct, f3]
            simpa using l1
          · rw [hct, f1]
            simpa using l2
          · rw [hct, f2, f1]
          · intro inv hinv
            have := l3 inv hinv
            simpa using this
          · rw [hct, f4]
            have := l4
            simpa using this
          · rw [hct, f5, f1, f3]

/-- C2: For every assistant Turn produced by the Agent Loop, the number of
CitationRefs on that Turn equals the number of tool calls executed while
producing it (each executed call appends exactly one `ToolInvocation`),
the CitationRefs appear in execution order, and each citation is exactly
the `{"tool", "args", "round"}` projection of the ToolInvocation recorded
at the same position — same tool, same args, same round number.  (No error
citations exist in this loop, so the exception clause is vacuous.) -/
theorem c2_citation_correlation (env : Env) (useOpenai : Bool) (h0 : List ToolInvocation) :
    ∃ executed : List ToolInvocation,
      (chatTurn env useOpenai h0).toolHistory = h0 ++ executed ∧
      (chatTurn env useOpenai h0).turn.citations = executed.map invCitation ∧
      (chatTurn env useOpenai h0).turn.citations.length = executed.length := by
  obtain ⟨new, s1, s2, s3, s4, s5, s6⟩ := chatTurn_spec env useOpenai h0
  refine ⟨new, s1, ?_, ?_⟩
  · rw [s3, s2]
  · rw [s3, s2]
    simp

/-- C6: After the answer is produced, the enrichment step reuses the
already-stored tool result instead of re-invoking anything.  First part:
over any whole chat turn the tool history gains exactly one record per
citation (so the enrichment appended no `ToolInvocation`) and the
dispatcher was invoked at most once per citation (so the enrichment
performed no new dispatch) — the `response_data` payload is a pure
function of the final citations and tool history.  Second part: when a
citation requests a non-default format (csv, table or dataframe) and the
history holds a matching entry whose stored result has a truthy `success`
flag, the payload is computed by `respDataFromEntry` from that stored
result alone. -/
theorem c6_enrichment_reuse :
    (∀ (env : Env) (useOpenai : Bool) (h0 : List ToolInvocation),
      ∃ executed : List ToolInvocation,
        (chatTurn env useOpenai h0).toolHistory = h0 ++ executed ∧
        executed.length = (chatTurn env useOpenai h0).citations.length ∧
        (chatTurn env useOpenai h0).dispatchLog.length ≤
          (chatTurn env useOpenai h0).citations.length ∧
        (chatTurn env useOpenai h0).responseData =
          buildResponseData (chatTurn env useOpenai h0).citations
            (chatTurn env useOpenai h0).toolHistory) ∧
    (∀ (hist : List ToolInvocation) (e : ToolInvocation) (fmt : String) (loc : Json),
      (fmt = "csv" ∨ fmt = "table" ∨ fmt = "dataframe") →
      hist.find? (fun e2 => e2.tool == "get_prefixes_by_location_enhanced" &&
        Json.beq (e2.args.pyGet ("location_name") Json.null) loc) = some e →
      (e.result.pyGet ("success") Json.null).truthy = true →
      buildResponseData
          [Json.obj [("tool", Json.str ("get_prefixes_by_location_enhanced")),
                     ("args", Json.obj [("location_name", loc), ("format", Json.str fmt)])]]
          hist
        = respDataFromEntry (Json.str fmt) e.result ∧
      (respDataFromEntry (Json.str fmt) e.result).isSome = true) := by
  constructor
  · intro env useOpenai h0
    obtain ⟨new, s1, s2, s3, s4, s5, s6⟩ := chatTurn_spec env useOpenai h0
    refine ⟨new, s1, ?_, ?_, s6⟩
    · rw [s2]; simp
    · rw [s2]
      simpa using s5
  · intro hist e fmt loc hfmt hfind hsucc
    have h1 : (Json.obj [("tool", Json.str ("get_prefixes_by_location_enhanced")),
        ("args", Json.obj [("location_name", loc), ("format", Json.str fmt)])]).pyGet
        ("tool") Json.null = Json.str ("get_prefixes_by_location_enhanced") := rfl
    have h2 : ((Json.obj [("tool", Json.str ("get_prefixes_by_location_enhanced")),
        ("args", Json.obj [("location_name", loc), ("format", Json.str fmt)])]).pyGet
        ("args") (Json.obj [])).pyGet ("format") (Json.str ("json")) = Json.str fmt := rfl
    have h3 : ((Json.obj [("tool", Json.str ("get_prefixes_by_location_enhanced")),
        ("args", Json.obj [("location_name", loc), ("format", Json.str fmt)])]).pyGet
        ("args") (Json.obj [])).pyGet ("location_name") (Json.str ("")) = loc := rfl
    have hcit : buildResponseData
        [Json.obj [("tool", Json.str ("get_prefixes_by_location_enhanced")),
                   ("args", Json.obj [("location_name", loc), ("format", Json.str fmt)])]]
        hist = respDataFromEntry (Json.str fmt) e.result := by
      rcases hfmt with h | h | h <;>
        (subst h;
         simp only [buildResponseData, h1, h2, h3, Json.beq];
         simp [hfind])
    refine ⟨hcit, ?_⟩
    rcases hfmt with h | h | h <;>
      (subst h; simp [respDataFromEntry, Json.beq, hsucc])

/-! ## Claim C1 — the round bound -/

/-- A representative tool call request used by the concrete scenarios. -/
def reqDevices : ToolCallReq :=
  { id := "call_1", name := "get_devices_by_location",
    arguments := some (Json.obj [("location_name", Json.str ("BRCN"))]) }

/-- An adversarial world: every completion response requests a tool call
and never carries text content. -/
def envAllToolsNoText : Env :=
  { completions := fun _ => { content := none, toolCalls := [reqDevices] },
    dispatch := fun _ => Json.obj [("result", Json.obj [("count", Json.num 2)])] }

/-- C1 counterexample: in a world where every completion response requests
a further tool call (and the model never produces text), the turn
produced after the 5 rounds has the empty string as its answer — the
claimed "the answer produced is non-empty" is false — and the loop in
fact issued two tools-disabled completion calls, not one. -/
theorem c1_counterexample :
    (∀ n, (envAllToolsNoText.completions n).toolCalls ≠ []) ∧
    (chatTurn envAllToolsNoText true []).turn.text = "" ∧
    (chatTurn envAllToolsNoText true []).completionLog =
      [true, true, true, true, true, false, false] := by
  refine ⟨fun n => by simp [envAllToolsNoText], ?_, ?_⟩ <;> rfl

/-- C1 (amended): for any sequence of completion responses that always
request at least one further tool call, the Agent Loop terminates after
exactly 5 tool-call rounds — 5 tools-enabled completion calls, every
recorded invocation tagged with a round in 1..5 and round 5 reached —
then issues one completion call with tools disabled; if that call's text
is non-empty it becomes the final answer; if it is empty, one additional
tools-disabled call is issued and its text (which may itself be empty)
becomes the answer. -/
theorem c1_round_bound_amended (env : Env)
    (hall : ∀ n, (env.completions n).toolCalls ≠ []) :
    (chatTurn env true []).completionLog =
      [true, true, true, true, true, false] ++
        (if (env.completions maxToolRounds).content.getD "" = "" then [false] else []) ∧
    (chatTurn env true []).turn.text =
      (if (env.completions maxToolRounds).content.getD "" = "" then
        (env.completions (maxToolRounds + 1)).content.getD ""
       else (env.completions maxToolRounds).content.getD "") ∧
    (∀ inv ∈ (chatTurn env true []).toolHistory, 1 ≤ inv.round ∧ inv.round ≤ maxToolRounds) ∧
    (∃ inv ∈ (chatTurn env true []).toolHistory, inv.round = maxToolRounds) := by
  have hask : askModel env true
      { round := 1, citations := [], toolHistory := [], dispatchLog := [],
        completionLog := [], nextCompletion := 0, nextDispatch := 0 } =
      (env.completions 0,
       { round := 1, citations := [], toolHistory := [], dispatchLog := [],
         completionLog := [true], nextCompletion := 1, nextDispatch := 0 }) := rfl
  cases h : (env.completions 0).toolCalls with
  | nil => exact absurd h (hall 0)
  | cons tc rest =>
      have hct : chatTurn env true [] =
          finishAfterLoop env (agentLoopGo env (maxToolRounds + 1) (tc :: rest)
            { round := 1, citations := [], toolHistory := [], dispatchLog := [],
              completionLog := [true], nextCompletion := 1, nextDispatch := 0 }) := by
        simp [chatTurn, hask, h]
      obtain ⟨r1, r2, r3, r4⟩ := agentLoopGo_allToolCalls env hall (maxToolRounds + 1)
        (tc :: rest)
        { round := 1, citations := [], toolHistory := [], dispatchLog := [],
          completionLog := [true], nextCompletion := 1, nextDispatch := 0 }
        (by simp) (by simp [maxToolRounds]) rfl (by simp [maxToolRounds])
      obtain ⟨f1, f2, f3, f4, f5⟩ := finishAfterLoop_fields env
        (agentLoopGo env (maxToolRounds + 1) (tc :: rest)
          { round := 1, citations := [], toolHistory := [], dispatchLog := [],
            completionLog := [true], nextCompletion := 1, nextDispatch := 0 })
      have hrep : (List.replicate (maxToolRounds - 1) true : List Bool) =
          [true, true, true, true] := rfl
      refine ⟨?_, ?_, ?_, ?_⟩
      · rw [hct]
        by_cases hc5 : (env.completions maxToolRounds).content.getD "" = ""
        · simp only [finishAfterLoop, r1, hc5, if_pos]
          simp only [chatFinish, extraFinalCall, askModel]
          simp only [r2, r3, hrep, hc5]
          simp
        · simp only [finishAfterLoop, r1, hc5]
          simp only [if_neg hc5, chatFinish]
          simp only [r2, hrep, hc5]
          simp
      · rw [hct]
        by_cases hc5 : (env.completions maxToolRounds).content.getD "" = ""
        · simp only [finishAfterLoop, r1, hc5, if_pos]
          simp only [chatFinish, extraFinalCall, askModel]
          simp only [r3, hc5]
        · simp only [finishAfterLoop, r1]
          simp only [if_neg hc5, chatFinish, hc5]
          simp
      · intro inv hinv
        obtain ⟨new, s1, s2, s3, s4, s5, s6⟩ := chatTurn_spec env true []
        rw [s1] at hinv
        exact s4 inv (by simpa using hinv)
      · rw [hct]
        rw [f3]
        exact r4

/-- A cooperative world: every completion response requests a tool call
and carries non-empty text. -/
def envAllToolsWithText : Env :=
  { completions := fun _ => { content := some ("All done."), toolCalls := [reqDevices] },
    dispatch := fun _ => Json.obj [("result", Json.obj [("count", Json.num 2)])] }

/-- Witness for the amended C1 at a concrete world: 5 tools-enabled
completion calls, then a single tools-disabled call whose non-empty text
becomes the answer. -/
theorem c1_round_bound_amended_witness :
    (chatTurn envAllToolsWithText true []).completionLog =
      [true, true, true, true, true, false] ∧
    (chatTurn envAllToolsWithText true []).turn.text = "All done." := by
  obtain ⟨hlog, htext, _, _⟩ :=
    c1_round_bound_amended envAllToolsWithText (fun n => by simp [envAllToolsWithText])
  have hne : ¬ ((envAllToolsWithText.completions maxToolRounds).content.getD "" = "") := by
    decide
  constructor
  · rw [hlog, if_neg hne]
    simp
  · rw [htext, if_neg hne]
    rfl

/-! ## Claim C8 — the empty-answer substitution -/

/-- A world in which the model requests one tool call and then answers
with empty text, twice. -/
def envEmptyAnswer : Env :=
  { completions := fun n =>
      if n = 0 then { content := none, toolCalls := [reqDevices] }
      else { content := some (""), toolCalls := [] },
    dispatch := fun _ => Json.obj [("result", Json.obj [("count", Json.num 2)])] }

/-- C8 counterexample: the substitution in app.py lines 459-466 tests
`assistant_response is None`, not emptiness, so when the model returns
empty text for both the follow-up call and the retry call, the persisted
assistant Turn's text is the empty string. -/
theorem c8_counterexample :
    (chatTurn envEmptyAnswer true []).turn.role = "assistant" ∧
    (chatTurn envEmptyAnswer true []).turn.text = "" := ⟨rfl, rfl⟩

/-- C8 (amended): a fixed fallback string is substituted only when the
answer is `None` — never assigned — (the "OpenAI is not configured" string
without an LLM, the apology string with one), and, in the branch where the
first response carries no tool calls, when its direct content is empty or
absent; an empty string produced by the tool-call loop (after its one
retry completion call) is persisted as the empty string. -/
theorem c8_empty_answer_amended :
    (∀ (useOpenai : Bool) (cits : List Json) (st : AgentState),
       (chatFinish useOpenai none cits st).turn.text =
         (if useOpenai then apologyMsg else openaiNotConfiguredMsg)) ∧
    (∀ (useOpenai : Bool) (cits : List Json) (st : AgentState) (a : String),
       (chatFinish useOpenai (some a) cits st).turn.text = a) ∧
    (∀ (env : Env) (h0 : List ToolInvocation),
       (env.completions 0).toolCalls = [] →
       (env.completions 0).content.getD "" = "" →
       (chatTurn env true h0).turn.text = noToolsDirectFallback) ∧
    (∀ (env : Env) (h0 : List ToolInvocation),
       (chatTurn env false h0).turn.text = openaiNotConfiguredMsg) := by
  refine ⟨?_, ?_, ?_, ?_⟩
  · intro useOpenai cits st
    cases useOpenai <;> simp [chatFinish]
  · intro useOpenai cits st a
    simp [chatFinish]
  · intro env h0 h1 h2
    have hask : askModel env true
        { round := 1, citations := [], toolHistory := h0, dispatchLog := [],
          completionLog := [], nextCompletion := 0, nextDispatch := 0 } =
        (env.completions 0,
         { round := 1, citations := [], toolHistory := h0, dispatchLog := [],
           completionLog := [true], nextCompletion := 1, nextDispatch := 0 }) := rfl
    cases hc : (env.completions 0).content with
    | none => simp [chatTurn, hask, h1, hc, chatFinish]
    | some c =>
        have hce : c = "" := by simpa [hc] using h2
        simp [chatTurn, hask, h1, hc, hce, chatFinish]
  · intro env h0
    simp [chatTurn, chatFinish]

/-- A world with no tool calls and empty direct content, for the amended
C8: the canned no-tools reply is substituted. -/
def envNoToolsEmptyText : Env :=
  { completions := fun _ => { content := some (""), toolCalls := [] },
    dispatch := fun _ => Json.null }

/-- Witness for the amended C8 at a concrete world. -/
theorem c8_empty_answer_amended_witness :
    (chatTurn envNoToolsEmptyText true []).turn.text = noToolsDirectFallback :=
  c8_empty_answer_amended.2.2.1 envNoToolsEmptyText [] rfl rfl

/-! ## Claim C4 — error citations (Agent Loop side) -/

/-- A world in which the single dispatched tool call fails with
`{"error": "timeout"}` and the model then answers. -/
def reqPrefixesBO3 : ToolCallReq :=
  { id := "call_1",
    name := "get_prefixes_by_location_enhanced",
    arguments := some (Json.obj [("location_name", Json.str ("Branch Office 3")),
                                 ("format", Json.str ("json"))]) }

def envDispatchTimeout : Env :=
  { completions := fun n =>
      if n = 0 then { content := none, toolCalls := [reqPrefixesBO3] }
      else { content := some ("The prefix lookup timed out."), toolCalls := [] },
    dispatch := fun _ => Json.obj [("error", Json.str ("timeout"))] }

/-- C4 counterexample (Agent Loop side): when tool dispatch returns
`{"error": "timeout"}`, the Agent Loop records that error mapping as the
invocation's result, but the CitationRef it records is the ordinary
`{"tool", "args", "round"}` one — it carries no `error` field at all,
contradicting the claim that the citation carries `error: "timeout"` in
the Agent Loop. -/
theorem c4_counterexample :
    (chatTurn envDispatchTimeout true []).toolHistory.map (fun i => i.result) =
      [Json.obj [("error", Json.str ("timeout"))]] ∧
    (chatTurn envDispatchTimeout true []).turn.citations.map
      (fun c => c.getField ("error")) = [none] ∧
    (chatTurn envDispatchTimeout true []).turn.text = "The prefix lookup timed out." :=
  ⟨rfl, rfl, rfl⟩

/-! ## Conversation Store — `clear_chat`, `new_chat`, title derivation
(app.py lines 579-746).  MongoDB documents become records, the two
collections become lists in insertion order; `archived_at`/`created_at`
timestamps and the generated archive `_id` are omitted. -/

/-- One live conversation document of the `conversations` collection. -/
structure Conversation where
  session_id : String
  messages : List Turn
  tools : List ToolInvocation

/-- One document of the `conversation_archives` collection. -/
structure Archive where
  session_id : String
  messages : List Turn
  tools : List ToolInvocation
  title : String
  message_count : Nat
  first_message : String

/-- The document store. -/
structure StoreState where
  conversations : List Conversation
  archives : List Archive

/-- `conversations_col.find_one({'session_id': sid})`. -/
def findConv (st : StoreState) (sid : String) : Option Conversation :=
  st.conversations.find? (fun c => c.session_id == sid)

/-- `update_one(filter, {'$set': ...})`: updates the first matching
document only, no upsert. -/
def updateFirst (p : Conversation → Bool) (g : Conversation → Conversation) :
    List Conversation → List Conversation
  | [] => []
  | c :: rest => if p c then g c :: rest else c :: updateFirst p g rest

/-- `_generate_conversation_title` (app.py lines 617-631): empty list ->
"Empty Conversation"; else the first user turn's text, cut to
`text[:47] + "..."` when longer than 50 characters; no user turn ->
"Conversation". -/
def generate_conversation_title (messages : List Turn) : String :=
  if messages.isEmpty then "Empty Conversation"
  else
    match messages.find? (fun m => m.role == "user") with
    | some m =>
        if m.text.length > 50 then ((m.text.data.take 47).asString ++ "...")
        else m.text
    | none => "Conversation"

/-- `conv_doc.get('messages', [{}])[0].get('text', '') if ... else ''`
(app.py lines 598 and 730). -/
def firstMessageText : List Turn → String
  | [] => ""
  | t :: _ => t.text

/-- The archive entry built identically by `clear_chat` (app.py lines
591-599) and `new_chat` (lines 723-731). -/
def mkArchiveEntry (c : Conversation) : Archive :=
  { session_id := c.session_id,
    messages := c.messages,
    tools := c.tools,
    title := generate_conversation_title c.messages,
    message_count := c.messages.length,
    first_message := firstMessageText c.messages }

/-- `clear_chat` (app.py lines 579-614): insert an archive iff the
conversation exists and `messages` is non-empty, then `$set` empty
`messages`/`tools` on the document with this session id.  The session id
is kept. -/
def clear_chat (st : StoreState) (sid : String) : StoreState :=
  let archives2 :=
    match findConv st sid with
    | some c =>
        if c.messages.isEmpty then st.archives else st.archives ++ [mkArchiveEntry c]
    | none => st.archives
  { conversations := updateFirst (fun c => c.session_id == sid)
      (fun c => { c with messages := [], tools := [] }) st.conversations,
    archives := archives2 }

/-- `new_chat` (app.py lines 713-746): insert an archive iff the current
conversation has messages, then insert a brand-new empty conversation
under a freshly generated session id (the generated
`session_{timestamp}_{pid}` value is a parameter).  The old conversation
document is left untouched. -/
def new_chat (st : StoreState) (sid new_session_id : String) : StoreState :=
  let archives2 :=
    match findConv st sid with
    | some c =>
        if c.messages.isEmpty then st.archives else st.archives ++ [mkArchiveEntry c]
    | none => st.archives
  { conversations := st.conversations ++
      [{ session_id := new_session_id, messages := [], tools := [] }],
    archives := archives2 }

theorem updateFirst_length (p : Conversation → Bool) (g : Conversation → Conversation) :
    ∀ l : List Conversation, (updateFirst p g l).length = l.length := by
  intro l
  induction l with
  | nil => rfl
  | cons a rest ih =>
      by_cases ha : p a <;> simp [updateFirst, ha, ih]

theorem updateFirst_find (sid : String) (g : Conversation → Conversation)
    (hg : ∀ c, (g c).session_id = c.session_id) :
    ∀ (l : List Conversation) (c : Conversation),
      l.find? (fun c2 => c2.session_id == sid) = some c →
      (updateFirst (fun c2 => c2.session_id == sid) g l).find?
        (fun c2 => c2.session_id == sid) = some (g c) := by
  intro l
  induction l with
  | nil => intro c h; simp at h
  | cons a rest ih =>
      intro c h
      by_cases ha : a.session_id == sid
      · have hc : c = a := by
          simp [List.find?, ha] at h
          exact h.symm
        subst hc
        simp [updateFirst, ha, List.find?, hg]
      · have h2 : rest.find? (fun c2 => c2.session_id == sid) = some c := by
          simpa [List.find?, ha] using h
        simp [updateFirst, ha, List.find?, ih c h2]

/-- C7: invoking the clear endpoint on a session whose live Conversation
has empty `messages` creates no Archive; an Archive is written exactly
when `messages` is non-empty, and that Archive snapshots the pre-clear
`messages` and `tools` (the write happens before the arrays are cleared);
afterwards the live document under the same session id carries empty
`messages` and `tools`. -/
theorem c7_archive_empty_guard (st : StoreState) (sid : String) (c : Conversation)
    (hfind : findConv st sid = some c) :
    (c.messages = [] → (clear_chat st sid).archives = st.archives) ∧
    (c.messages ≠ [] →
      (clear_chat st sid).archives = st.archives ++ [mkArchiveEntry c] ∧
      (mkArchiveEntry c).messages = c.messages ∧
      (mkArchiveEntry c).tools = c.tools) ∧
    findConv (clear_chat st sid) sid = some { c with messages := [], tools := [] } := by
  refine ⟨?_, ?_, ?_⟩
  · intro h
    simp [clear_chat, hfind, h]
  · intro h
    refine ⟨?_, rfl, rfl⟩
    simp [clear_chat, hfind, h]
  · have := updateFirst_find sid
      (fun c2 => { c2 with messages := [], tools := [] }) (fun _ => rfl)
      st.conversations c hfind
    simpa [clear_chat, findConv] using this

/-- A store holding one conversation with one user message, and one with
an empty conversation, for the concrete witnesses. -/
def demoConv : Conversation :=
  { session_id := "s1",
    messages := [{ role := "user", text := "What prefixes are at Branch Office 3?" }],
    tools := [] }

def demoStore : StoreState := { conversations := [demoConv], archives := [] }

def demoStoreEmpty : StoreState :=
  { conversations := [{ session_id := "s2", messages := [], tools := [] }],
    archives := [] }

/-- Witness for C7 at concrete stores: a non-empty conversation is
archived and cleared; an empty one produces no archive. -/
theorem c7_archive_empty_guard_witness :
    (clear_chat demoStore "s1").archives = demoStore.archives ++ [mkArchiveEntry demoConv] ∧
    findConv (clear_chat demoStore "s1") "s1" =
      some { demoConv with messages := [], tools := [] } ∧
    (clear_chat demoStoreEmpty "s2").archives = demoStoreEmpty.archives := by
  obtain ⟨h1, h2, h3⟩ := c7_archive_empty_guard demoStore "s1" demoConv rfl
  obtain ⟨g1, g2, g3⟩ := c7_archive_empty_guard demoStoreEmpty "s2"
    { session_id := "s2", messages := [], tools := [] } rfl
  exact ⟨(h2 (by simp [demoConv])).1, h3, g1 rfl⟩

/-- C9: for a non-empty conversation (every archived conversation is
non-empty, by the guard established for C7): the derived title equals the
first user turn's text when that text is at most 50 characters; when
longer, the title is the first 47 characters followed by "..." — 50
characters in total; with no user turn the title is the fixed placeholder
"Conversation". -/
theorem c9_title_derivation (msgs : List Turn) (h : msgs ≠ []) :
    (∀ m, msgs.find? (fun t => t.role == "user") = some m →
       (m.text.length ≤ 50 → generate_conversation_title msgs = m.text) ∧
       (m.text.length > 50 →
          generate_conversation_title msgs = (m.text.data.take 47).asString ++ "..." ∧
          (generate_conversation_title msgs).length = 50)) ∧
    (msgs.find? (fun t => t.role == "user") = none →
       generate_conversation_title msgs = "Conversation") := by
  constructor
  · intro m hm
    constructor
    · intro hlen
      simp [generate_conversation_title, h, hm, Nat.not_lt.mpr hlen]
    · intro hlen
      have htitle : generate_conversation_title msgs =
          (m.text.data.take 47).asString ++ "..." := by
        simp [generate_conversation_title, h, hm, hlen]
      refine ⟨htitle, ?_⟩
      rw [htitle]
      have hdata : m.text.data.length = m.text.length := rfl
      have htake : (m.text.data.take 47).length = 47 := by
        rw [List.length_take]
        omega
      have hlen47 : ((m.text.data.take 47).asString).length = 47 := htake
      rw [String.length_append, hlen47]
      rfl
  · intro hm
    simp [generate_conversation_title, h, hm]

/-- A short and a long user turn for the C9 witness. -/
def demoShortTurn : Turn :=
  { role := "user", text := "What prefixes are at Branch Office 3?" }

def demoLongTurn : Turn :=
  { role := "user",
    text := "Please list every network prefix currently assigned to Branch Office 3" }

/-- Witness for C9 at concrete message lists: a short title is kept
verbatim, a long one is cut to 47 characters plus "...", and a
conversation with only assistant turns gets the placeholder. -/
theorem c9_title_derivation_witness :
    generate_conversation_title [demoShortTurn] =
      "What prefixes are at Branch Office 3?" ∧
    generate_conversation_title [demoLongTurn] =
      "Please list every network prefix currently assi" ++ "..." ∧
    generate_conversation_title [{ role := "assistant", text := "Hi" }] = "Conversation" := by
  refine ⟨?_, ?_, ?_⟩
  · exact ((c9_title_derivation [demoShortTurn] (by simp)).1 demoShortTurn rfl).1 (by decide)
  · exact ((((c9_title_derivation [demoLongTurn] (by simp)).1 demoLongTurn rfl).2
      (by decide)).1).trans (by rfl)
  · exact (c9_title_derivation [{ role := "assistant", text := "Hi" }] (by simp)).2 rfl

/-- C10: the new-chat and clear operations differ exactly as claimed.
`new_chat` leaves every existing conversation document — its `messages`
and `tools` included — unmodified, appends one new empty conversation
under the freshly generated session id, and archives the current
conversation when it has messages.  `clear_chat` adds no document and
keeps the same session id, resetting `messages`/`tools` of that document
to empty arrays. -/
theorem c10_new_vs_clear (st : StoreState) (sid new_sid : String) :
    ((new_chat st sid new_sid).conversations =
       st.conversations ++ [{ session_id := new_sid, messages := [], tools := [] }]) ∧
    (∀ c, findConv st sid = some c → c.messages ≠ [] →
       (new_chat st sid new_sid).archives = st.archives ++ [mkArchiveEntry c]) ∧
    ((clear_chat st sid).conversations.length = st.conversations.length) ∧
    (∀ c, findConv st sid = some c →
       findConv (clear_chat st sid) sid = some { c with messages := [], tools := [] }) := by
  refine ⟨rfl, ?_, ?_, ?_⟩
  · intro c hc hne
    simp [new_chat, hc, hne]
  · simpa [clear_chat] using
      updateFirst_length (fun c => c.session_id == sid)
        (fun c => { c with messages := [], tools := [] }) st.conversations
  · intro c hc
    have := updateFirst_find sid
      (fun c2 => { c2 with messages := [], tools := [] }) (fun _ => rfl)
      st.conversations c hc
    simpa [clear_chat, findConv] using this

/-- Witness for C10 at a concrete store. -/
theorem c10_new_vs_clear_witness :
    ((new_chat demoStore "s1" "s9").conversations =
       [demoConv, { session_id := "s9", messages := [], tools := [] }]) ∧
    ((new_chat demoStore "s1" "s9").archives = [mkArchiveEntry demoConv]) ∧
    ((clear_chat demoStore "s1").conversations.length = 1) ∧
    (findConv (clear_chat demoStore "s1") "s1" =
       some { demoConv with messages := [], tools := [] }) := by
  obtain ⟨h1, h2, h3, h4⟩ := c10_new_vs_clear demoStore "s1" "s9"
  exact ⟨h1, h2 demoConv rfl (by simp [demoConv]), h3, h4 demoConv rfl⟩

/-! ## Fallback Heuristic Responder —
`services/mcp-nautobot/mcp_server/tools/llm_chat.py`

String utilities mirror the Python operations used there: `in` (substring
test), `.lower()`, `.strip()`, `.split`, and the two `re.findall`
patterns of `extract_location_name`, whose exact backtracking semantics
(`(?:kw)\s+([A-Za-z0-9\-\s]+?)(?:\s|$|\.|\?)`, case-insensitive,
non-overlapping scans) are implemented directly.  All inputs are ASCII,
where Python `.lower()` and `re.IGNORECASE` agree with `Char.toLower`. -/

/-- Python `.lower()` (ASCII inputs), computed characterwise.  The core
`String.toLower` is byte-position based and does not reduce inside the
kernel, so the embedding uses this list-based equivalent. -/
def strToLower (s : String) : String :=
  String.mk (s.data.map Char.toLower)

/-- Case-sensitive `List.isPrefixOf` on characters, spelled out. -/
def listStartsWith : List Char → List Char → Bool
  | _, [] => true
  | [], _ :: _ => false
  | a :: xs, b :: ys => (a == b) && listStartsWith xs ys

/-- Index of the first occurrence of `needle` in `hay` (Python
`hay.find(needle)` restricted to found/not-found). -/
def findSubIndex : List Char → List Char → Option Nat
  | hay, needle =>
    match hay with
    | [] => if needle.isEmpty then some 0 else none
    | _ :: tl =>
        if listStartsWith (hay) needle then some 0
        else (findSubIndex tl needle).map (fun i => i + 1)

/-- Python `needle in hay` on strings. -/
def strContains (hay needle : String) : Bool :=
  (findSubIndex hay.data needle.data).isSome

/-- Python `any(word in text for word in words)`. -/
def anyWordIn (text : String) (words : List String) : Bool :=
  words.any (fun w => strContains text w)

/-- `s` begins with `t` (Python `s.startswith(t)`). -/
def strStartsWith (s t : String) : Bool :=
  listStartsWith s.data t.data

/-- `message[i : i + n]`. -/
def sliceStr (s : String) (i n : Nat) : String :=
  ((s.data.drop i).take n).asString

/-- Python regex `\s` (ASCII): space, tab, newline, carriage return,
vertical tab, form feed. -/
def isPySpace (c : Char) : Bool :=
  (c == Char.ofNat 32) || (c == Char.ofNat 9) || (c == Char.ofNat 10) ||
  (c == Char.ofNat 13) || (c == Char.ofNat 11) || (c == Char.ofNat 12)

/-- Python `str.strip()` (ASCII whitespace) over the character list. -/
def pyStrip (s : String) : String :=
  String.mk (((s.data.dropWhile (fun c => isPySpace c)).reverse.dropWhile
    (fun c => isPySpace c)).reverse)

/-- Python `s.split(c)` for a single-character separator. -/
def splitOnChar (c : Char) : List Char → List (List Char)
  | [] => [[]]
  | x :: xs =>
    match splitOnChar c xs with
    | [] => if x == c then [[], []] else [[x]]
    | r :: rs => if x == c then [] :: r :: rs else (x :: r) :: rs

/-- Python `s.split(chr(10))`. -/
def splitLines (s : String) : List String :=
  (splitOnChar (Char.ofNat 10) s.data).map List.asString

/-- Python `sep.join(xs)`. -/
def joinWith (sep : String) : List String → String
  | [] => ""
  | [x] => x
  | x :: y :: xs => x ++ sep ++ joinWith sep (y :: xs)

/-- The capture class `[A-Za-z0-9\-\s]`. -/
def locClassChar (c : Char) : Bool :=
  c.isAlpha || c.isDigit || (c == '-') || isPySpace c

/-- The trailing group `(?:\s|\.|\?)` (besides end-of-string). -/
def isStopChar (c : Char) : Bool :=
  isPySpace c || (c == '.') || (c == '?')

/-- The non-greedy capture `([A-Za-z0-9\-\s]+?)(?:\s|$|\.|\?)`: consume
class characters one at a time, stopping at the first position whose next
character is a stop character (consumed) or the end of input; fail on a
character that fits neither role.  Returns the capture and the rest of
the input after the whole match. -/
def tryCapture : List Char → Option (List Char × List Char)
  | [] => none
  | c :: rest =>
    if !locClassChar c then none
    else
      match rest with
      | [] => some ([c], [])
      | d :: rest2 =>
          if isStopChar d then some ([c], rest2)
          else
            match tryCapture rest with
            | some (cap, after) => some (c :: cap, after)
            | none => none

/-- Length of the leading whitespace run. -/
def maxWsRun : List Char → Nat
  | [] => 0
  | c :: rest => if isPySpace c then maxWsRun rest + 1 else 0

/-- `\s+` followed by the capture, with the regex engine's backtracking:
the whitespace run is consumed greedily first and given back one
character at a time while the capture fails. -/
def tryWsCapture (cs : List Char) : Nat → Option (List Char × List Char)
  | 0 => none
  | w + 1 =>
    match tryCapture (cs.drop (w + 1)) with
    | some r => some r
    | none => tryWsCapture cs w

/-- Case-insensitive keyword match at the head of the input (the keyword
is stored lowercase). -/
def startsWithLower : List Char → List Char → Bool
  | _, [] => true
  | [], _ :: _ => false
  | a :: xs, b :: ys => (a.toLower == b) && startsWithLower xs ys

/-- Try the keyword alternation at one position: Python `re` tries the
alternatives left to right and, for each, the rest of the pattern with
backtracking, before giving up on the position. -/
def tryKeywordsAt (kws : List (List Char)) (cs : List Char) :
    Option (List Char × List Char) :=
  kws.findSome? (fun kw =>
    if startsWithLower cs kw then
      tryWsCapture (cs.drop kw.length) (maxWsRun (cs.drop kw.length))
    else none)

/-- `re.findall` for these patterns: scan left to right, non-overlapping,
resuming after the end of each whole match.  Every match consumes at
least one character, so `length + 1` fuel is exact. -/
def findallGo (kws : List (List Char)) : Nat → List Char → List (List Char)
  | 0, _ => []
  | _ + 1, [] => []
  | fuel + 1, c :: tl =>
    match tryKeywordsAt kws (c :: tl) with
    | some (cap, after) => cap :: findallGo kws fuel after
    | none => findallGo kws fuel tl

/-- All captures of one pattern over the message. -/
def reFindallLoc (kws : List String) (msg : String) : List String :=
  (findallGo (kws.map String.data) (msg.length + 1) msg.data).map List.asString

/-- llm_chat.py line 52: words never accepted as a location. -/
def locationDenylist : List String :=
  ["prefixes", "prefix", "what", "show", "find", "me", "the", "location"]

/-- One pattern pass of `extract_location_name` (llm_chat.py lines 47-53):
first stripped capture whose lower-case form is not denylisted. -/
def patternTry (kws : List String) (message : String) : Option String :=
  (reFindallLoc kws message).findSome? (fun m =>
    let name := pyStrip m
    if strToLower name ∈ locationDenylist then none else some name)

/-- The ordered regular-expression fallback of `extract_location_name`
(llm_chat.py lines 41-56): prepositions first, then location keywords,
then the fixed default. -/
def patternsFallback (message : String) : String :=
  match patternTry ["at", "in", "for"] message with
  | some name => name
  | none =>
    match patternTry ["site", "office", "branch", "location"] message with
    | some name => name
    | none => "HQ-Dallas"

/-- llm_chat.py lines 25-29: the fixed list of known location names
(lower-case, including the documented typo). -/
def knownLocations : List String :=
  ["hq-dallas", "lab-austin", "hq-london", "hq-sydney",
   "branch office 1", "branch office 2", "branch office 3", "branch ofice 3",
   "data center 1", "data center 2", "campus a", "campus b"]

/-- `extract_location_name` (llm_chat.py lines 20-56): first known
location contained in the lower-cased message, returned in the original
casing (the case-insensitive `re.search` of the escaped literal finds the
first occurrence, i.e. the occurrence located in the lower-cased text);
otherwise the pattern fallback; otherwise "HQ-Dallas". -/
def extract_location_name (message : String) : String :=
  let ml := strToLower message
  match knownLocations.findSome? (fun loc =>
      (findSubIndex ml.data loc.data).map (fun i => sliceStr message i loc.length)) with
  | some name => name
  | none => patternsFallback message

/-! ### The prefixes tool —
`services/mcp-nautobot/mcp_server/tools/prefixes.py` -/

/-- `get_prefixes_by_location` (prefixes.py lines 11-50): the GraphQL
client either returns the prefix list or raises (the `Except` outcome);
the `format` argument is accepted but ignored; the function itself never
raises. -/
def get_prefixes_by_location (location_name : String) (format_arg : String)
    (clientOutcome : Except String (List Json)) : Json :=
  match clientOutcome with
  | Except.ok prefixes =>
      if prefixes.isEmpty then
        Json.obj [("success", Json.bool true),
          ("message", Json.str ("No prefixes found at location " ++ apos ++ location_name ++ apos)),
          ("data", Json.arr []),
          ("count", Json.num 0)]
      else
        Json.obj [("success", Json.bool true),
          ("message", Json.str ("Found " ++ toString prefixes.length ++
            " prefixes at location " ++ apos ++ location_name ++ apos)),
          ("count", Json.num prefixes.length),
          ("data", Json.arr prefixes)]
  | Except.error e =>
      Json.obj [("success", Json.bool false),
        ("error", Json.str ("Failed to get prefixes for location " ++ apos ++ location_name ++
          apos ++ ": " ++ e)),
        ("data", Json.arr []),
        ("count", Json.num 0)]

/-! ### Format resolution and answer building (llm_chat.py) -/

/-- The base format chain shared by both handlers (llm_chat.py lines
543-549 and 362-368). -/
def resolveFormatBase (ml : String) : String :=
  if anyWordIn ml ["table", "as table", "show table"] then "table"
  else if anyWordIn ml ["csv", "export", "download", "file"] then "csv"
  else if anyWordIn ml ["dataframe", "analysis", "analyze"] then "dataframe"
  else "json"

/-- The follow-up trigger words of `handle_prefix_query` (line 552). -/
def prefixFollowUpWords : List String :=
  ["it", "them", "those", "this", "that", "the", "show", "give", "get", "as", "in"]

/-- Format resolution of `handle_prefix_query` (llm_chat.py lines
542-563): the base chain, then — when a follow-up word occurs — the same
chain again with a final "show/give/get -> table" default. -/
def handlePrefixFormat (ml : String) : String :=
  let base := resolveFormatBase ml
  if anyWordIn ml prefixFollowUpWords then
    if anyWordIn ml ["table", "as table", "show table"] then "table"
    else if anyWordIn ml ["csv", "export", "download", "file"] then "csv"
    else if anyWordIn ml ["dataframe", "analysis", "analyze"] then "dataframe"
    else if anyWordIn ml ["show", "give", "get"] then "table"
    else base
  else base

/-- Format resolution of `handle_network_follow_up` (llm_chat.py lines
361-372), whose trailing default also accepts "provide". -/
def followUpFormat (ml : String) : String :=
  if anyWordIn ml ["table", "as table", "show table"] then "table"
  else if anyWordIn ml ["csv", "export", "download", "file"] then "csv"
  else if anyWordIn ml ["dataframe", "analysis", "analyze"] then "dataframe"
  else if anyWordIn ml ["show", "give", "get", "provide"] then "table"
  else "json"


/-- The source file stores its emoji and bullets as these literal
character sequences (a UTF-8/latin-1 double-encoding baked into the
repository); they are reproduced exactly. -/
def bulletGlyph : String :=
  String.mk [Char.ofNat 0xe2, Char.ofNat 0x20ac, Char.ofNat 0xa2]

def bulbGlyph : String :=
  String.mk [Char.ofNat 0xf0, Char.ofNat 0x178, Char.ofNat 0x2019, Char.ofNat 0xa1]

def inboxGlyph : String :=
  String.mk [Char.ofNat 0xf0, Char.ofNat 0x178, Char.ofNat 0x201c, Char.ofNat 0xa5]

def chartGlyph : String :=
  String.mk [Char.ofNat 0xf0, Char.ofNat 0x178, Char.ofNat 0x201c, Char.ofNat 0x160]

def clipboardGlyph : String :=
  String.mk [Char.ofNat 0xf0, Char.ofNat 0x178, Char.ofNat 0x201c, Char.ofNat 0x2039]

/-- `p["prefix"]` for the comma-join of the answer: a missing key raises
`KeyError` (whose `str()` is the quoted key); a non-string value would
make `", ".join` raise a `TypeError` (its message is abstracted — the
GraphQL client returns strings there). -/
def prefixItemStr (p : Json) : Except String String :=
  match p.getField ("prefix") with
  | some (Json.str s) => Except.ok s
  | some _ => Except.error ("sequence item 0: expected str instance")
  | none => Except.error (apos ++ "prefix" ++ apos)

/-- The `result.get("summary")` block of the json answer (llm_chat.py
lines 397-399 / 588-590); `get_prefixes_by_location` never returns a
`summary`, so the lookups below only matter for other result shapes. -/
def summarySuffix (result : Json) : Except String String :=
  match result.getField ("summary") with
  | some s =>
      if s.truthy then
        match s.pyItem ("total_prefixes") with
        | Except.error e => Except.error e
        | Except.ok tp =>
          match s.pyItem ("total_hosts") with
          | Except.error e => Except.error e
          | Except.ok th =>
            Except.ok (("\n\n" ++ chartGlyph ++ " Summary: ") ++ tp.pyStr ++
              " prefixes with " ++ th.pyStr ++ " total hosts")
      else Except.ok ""
  | none => Except.ok ""

/-- The json-format answer (llm_chat.py lines 579-590 / 388-399). -/
def mapPrefixItems : List Json → Except String (List String)
  | [] => Except.ok []
  | q :: qs =>
    match prefixItemStr q with
    | Except.error e => Except.error e
    | Except.ok s =>
      match mapPrefixItems qs with
      | Except.error e => Except.error e
      | Except.ok rest => Except.ok (s :: rest)

/-- The json-format answer body (llm_chat.py lines 579-590 / 388-399):
`[p["prefix"] for p in prefixes[:5]]` with the first raise propagated,
then the `Found ...` sentence. -/
def jsonAnswer (result : Json) (location_name : String) : Except String String :=
  match result.pyItem ("data") with
  | Except.error e => Except.error e
  | Except.ok dataJ =>
    match dataJ with
    | Json.arr prefixes =>
      match mapPrefixItems (prefixes.take 5) with
      | Except.error e => Except.error e
      | Except.ok plist =>
        match summarySuffix result with
        | Except.error e => Except.error e
        | Except.ok summ =>
          Except.ok ("Found " ++ toString prefixes.length ++ " prefixes at " ++
            location_name ++ ". " ++
            (if prefixes.length ≤ 5 then "All prefixes: " ++ joinWith ", " plist
             else "First 5 prefixes: " ++ joinWith ", " plist ++ "... (and " ++
               toString (prefixes.length - 5) ++ " more)") ++ summ)
    | _ => Except.error ("object is not a list")

/-- The table-format answer (llm_chat.py lines 592-595 / 401-404):
`answer += result["data"]` raises a `TypeError` unless the stored data is
a string — and this tool always stores a list there. -/
def tableAnswer (result : Json) (location_name : String) : Except String String :=
  match result.pyItem ("data") with
  | Except.error e => Except.error e
  | Except.ok dataJ =>
    match dataJ with
    | Json.str s =>
        Except.ok ((clipboardGlyph ++ " **Prefixes Table for ") ++ location_name ++ "**\n\n" ++
          "Here" ++ apos ++ "s a formatted table of the prefixes:\n\n" ++ s)
    | _ => Except.error ("can only concatenate str (not \"list\") to str")

/-- The dataframe-format answer (llm_chat.py lines 597-605 / 406-414);
the tool's results never carry an `analysis` key, so the bullet block is
dead on reachable inputs (its Python float/thousands formatting is
rendered plainly here). -/
def dataframeAnalysisBullets (result : Json) : Except String String :=
  match result.getField ("analysis") with
  | some a =>
      if a.truthy then
        match a.pyItem ("total_hosts") with
        | Except.error e => Except.error e
        | Except.ok th =>
          match a.pyItem ("average_subnet") with
          | Except.error e => Except.error e
          | Except.ok av =>
            match a.pyItem ("largest_subnet") with
            | Except.error e => Except.error e
            | Except.ok lg =>
              match a.pyItem ("smallest_subnet") with
              | Except.error e => Except.error e
              | Except.ok sm =>
                Except.ok ((bulletGlyph ++ " **Total Hosts**: ") ++ th.pyStr ++ "\n" ++
                  (bulletGlyph ++ " **Average Subnet**: /") ++ av.pyStr ++ "\n" ++
                  (bulletGlyph ++ " **Largest Subnet**: /") ++ lg.pyStr ++ "\n" ++
                  (bulletGlyph ++ " **Smallest Subnet**: /") ++ sm.pyStr ++ "\n")
      else Except.ok ""
  | none => Except.ok ""

def dataframeAnswer (result : Json) (location_name : String) : Except String String :=
  match dataframeAnalysisBullets result with
  | Except.error e => Except.error e
  | Except.ok mid =>
    Except.ok ((chartGlyph ++ " **Data Analysis for ") ++ location_name ++ "**\n\n" ++ mid ++
      "\nFound " ++ (result.pyGet ("count") (Json.num 0)).pyStr ++
      " prefixes with detailed analysis.")

/-- The csv-format answer (llm_chat.py lines 607-613 / 416-422). -/
def csvAnswer (result : Json) (location_name : String) : Except String String :=
  Except.ok ((inboxGlyph ++ " **CSV Export for ") ++ location_name ++ "**\n\n" ++
    "CSV data has been generated for " ++ location_name ++ ".\n" ++
    "Filename: " ++ (result.pyGet ("filename") (Json.str ("prefixes.csv"))).pyStr ++ "\n\n" ++
    "The CSV contains the following columns:\n" ++
    (bulletGlyph ++ " Prefix, Network, Subnet, Total Hosts, Status, Description, Locations\n\n") ++
    "You can download this data for further analysis in Excel or other tools.")

/-- llm_chat.py lines 615-619 / 424-428. -/
def fmtOptionsSuffix : String :=
  ("\n\n" ++ bulbGlyph ++ " **Other Format Options**:\n") ++
  (bulletGlyph ++ " Ask for ") ++ apos ++ "table format" ++ apos ++ " to see a formatted table\n" ++
  (bulletGlyph ++ " Ask for ") ++ apos ++ "CSV export" ++ apos ++ " to download the data\n" ++
  (bulletGlyph ++ " Ask for ") ++ apos ++ "data analysis" ++ apos ++ " to get statistical insights\n"

/-- The answer generation shared verbatim by `handle_prefix_query` (lines
577-622) and `handle_network_follow_up` (lines 386-431): on a truthy
`success` and truthy `data`, a format-specific body plus the fixed
options suffix; otherwise `result.get("message", "No prefixes found at
<location>.")`.  The embedded exceptions are the `KeyError`/`TypeError`
raises of the answer construction. -/
def buildPrefixAnswer (result : Json) (location_name format_type : String) :
    Except String String :=
  if (result.pyGet ("success") Json.null).truthy &&
     (result.pyGet ("data") Json.null).truthy then
    match (if format_type = "json" then jsonAnswer result location_name
       else if format_type = "table" then tableAnswer result location_name
       else if format_type = "dataframe" then dataframeAnswer result location_name
       else if format_type = "csv" then csvAnswer result location_name
       else Except.ok "") with
    | Except.error e => Except.error e
    | Except.ok core => Except.ok (core ++ fmtOptionsSuffix)
  else
    Except.ok ((result.pyGet ("message")
      (Json.str ("No prefixes found at " ++ location_name ++ "."))).pyStr)

/-! ### The fallback handlers (llm_chat.py lines 158-193, 347-515, 521-633) -/

/-- What one fallback run produces: the answer, the citation list, and
the `(location_name, format)` argument pairs of every
`get_prefixes_by_location` invocation it performed. -/
structure FbResult where
  answer : String
  citations : List Json
  invocations : List (String × String)

/-- llm_chat.py lines 355 / 531: locations never accepted from
extraction. -/
def fbInvalidLocations : List String :=
  ["HQ-Dallas", "a", "to", "in", "as", "the", "data", "format", "table", "csv", "export"]

/-- The ordinary citation both handlers append right after the tool call
(llm_chat.py lines 569-575 / 378-384). -/
def fbCitation (location_name format_type : String) (result : Json) : Json :=
  Json.obj [("tool", Json.str ("get_prefixes_by_location_enhanced")),
    ("args", Json.obj [("location_name", Json.str location_name),
                       ("format", Json.str format_type)]),
    ("result_count", result.pyGet ("count") (Json.num 0)),
    ("result_summary", result.pyGet ("message") (Json.str ("Query completed")))]

/-- The error citation appended by the `except` branches (llm_chat.py
lines 627-631 / 436-440). -/
def fbErrorCitation (location_name format_type : String) (e : String) : Json :=
  Json.obj [("tool", Json.str ("get_prefixes_by_location_enhanced")),
    ("args", Json.obj [("location_name", Json.str location_name),
                       ("format", Json.str format_type)]),
    ("error", Json.str e)]

/-- The shared `try`-block of both handlers: call the tool, append the
ordinary citation, build the answer; a raised exception yields the
"Sorry, ..." answer and an additional error citation (the ordinary one
was already appended before the raise). -/
def prefixToolCall (location_name format_type : String)
    (clientOutcome : Except String (List Json)) (cits0 : List Json) : FbResult :=
  let result := get_prefixes_by_location location_name format_type clientOutcome
  let cits1 := cits0 ++ [fbCitation location_name format_type result]
  match buildPrefixAnswer result location_name format_type with
  | Except.ok a =>
      { answer := a, citations := cits1,
        invocations := [(location_name, format_type)] }
  | Except.error e =>
      { answer := "Sorry, I encountered an error while looking up prefixes for " ++
          location_name ++ ": " ++ e,
        citations := cits1 ++ [fbErrorCitation location_name format_type e],
        invocations := [(location_name, format_type)] }

/-- Location resolution of `handle_prefix_query` (llm_chat.py lines
527-540): extraction from the message; when empty or invalid, scan the
history string's lines for one containing "user:" whose own extraction is
valid (the scan leaves the original value when no line qualifies). -/
def resolvePrefixLocation (message conversation_history : String) : String :=
  let loc0 := extract_location_name message
  if loc0 = "" ∨ loc0 ∈ fbInvalidLocations then
    if conversation_history ≠ "" then
      match (splitLines conversation_history).findSome? (fun line =>
          if strContains (strToLower line) ("user:") then
            (let hl := extract_location_name line
             if hl ≠ "" ∧ hl ∉ fbInvalidLocations then some hl else none)
          else none) with
      | some hl => hl
      | none => loc0
    else loc0
  else loc0

/-- `handle_prefix_query` (llm_chat.py lines 521-633). -/
def handle_prefix_query (user_message conversation_history : String)
    (clientOutcome : Except String (List Json)) (cits0 : List Json) : FbResult :=
  prefixToolCall (resolvePrefixLocation user_message conversation_history)
    (handlePrefixFormat (strToLower user_message)) clientOutcome cits0

/-- `handle_network_query` (llm_chat.py lines 445-447): delegates to
`handle_prefix_query` with the space-joined history texts. -/
def handle_network_query (message : String) (history : List Turn)
    (clientOutcome : Except String (List Json)) (cits0 : List Json) : FbResult :=
  handle_prefix_query message
    (joinWith " " (history.map (fun t => t.text))) clientOutcome cits0

/-- The reverse scan over user turns of `handle_network_follow_up`
(llm_chat.py lines 351-356): each user turn overwrites the candidate;
the scan stops at the first valid one. -/
def followUpLocScan : List Turn → Option String → Option String
  | [], acc => acc
  | t :: rest, acc =>
    if t.role == "user" then
      (let loc := extract_location_name t.text
       if loc ≠ "" ∧ loc ∉ fbInvalidLocations then some loc
       else followUpLocScan rest (some loc))
    else followUpLocScan rest acc

/-- `handle_network_follow_up` (llm_chat.py lines 347-442): location from
history (default "Branch Office 3" only when no user turn assigned one),
its own format resolution, then the shared tool call. -/
def handle_network_follow_up (message : String) (history : List Turn)
    (clientOutcome : Except String (List Json)) (cits0 : List Json) : FbResult :=
  let location_name :=
    match followUpLocScan history.reverse none with
    | some l => if l = "" then "Branch Office 3" else l
    | none => "Branch Office 3"
  prefixToolCall location_name (followUpFormat (strToLower message)) clientOutcome cits0

/-! ### The general-conversation and help replies (llm_chat.py lines
450-515), transcribed verbatim (including trailing spaces). -/

def greetingReply : String :=
  "Hello! I" ++ apos ++ "m an AI assistant that can help you with various tasks, " ++
  "particularly network information and data analysis.\n\n" ++
  "I have access to Nautobot network data and can help you with:\n" ++
  bulletGlyph ++ " Network prefix information and analysis\n" ++
  bulletGlyph ++ " Data formatting and export options\n" ++
  bulletGlyph ++ " General questions about network infrastructure\n" ++
  bulletGlyph ++ " And much more!\n\n" ++
  "What would you like to work on today?"

def howAreYouReply : String :=
  "I" ++ apos ++ "m doing well, thank you for asking! I" ++ apos ++
  "m ready to help you with whatever you need.\n\n" ++
  "I" ++ apos ++ "m particularly good at working with network data and can help you " ++
  "analyze, format, and export information from Nautobot. What can I assist you with today?"

def thanksReply : String :=
  "You" ++ apos ++ "re very welcome! I" ++ apos ++ "m happy to help. \n\n" ++
  "Is there anything else you" ++ apos ++ "d like to know or work on? I" ++ apos ++
  "m here to assist with network data analysis, formatting, or any other questions " ++
  "you might have."

def byeReply : String :=
  "Goodbye! It was great working with you. Feel free to come back anytime if you " ++
  "need help with network data analysis or any other tasks. Have a wonderful day!"

def genericCapabilityReply : String :=
  "I" ++ apos ++ "m an AI assistant that can help you with various tasks, " ++
  "particularly network information and data analysis.\n\n" ++
  "I have access to Nautobot network data and can help you with:\n" ++
  bulletGlyph ++ " Network prefix information and analysis\n" ++
  bulletGlyph ++ " Data formatting and export options  \n" ++
  bulletGlyph ++ " General questions about network infrastructure\n" ++
  bulletGlyph ++ " And much more!\n\n" ++
  "What would you like to work on today? You can ask me about specific network " ++
  "locations, request data in different formats, or just chat about whatever" ++
  apos ++ "s on your mind!"

def helpReply : String :=
  "I can help you with Nautobot network information! Here are some things I can do:\n\n" ++
  "1. **Find prefixes by location**: Ask me \"What prefixes exist at HQ-Dallas?\" " ++
  "or \"Show me prefixes at Branch Office 3\"\n\n" ++
  "2. **Multiple format options**:\n" ++
  "   " ++ bulletGlyph ++ " **JSON format** (default): \"What prefixes are at Branch Office 3?\"\n" ++
  "   " ++ bulletGlyph ++ " **Table format**: \"Show me prefixes at Branch Office 3 as a table\"\n" ++
  "   " ++ bulletGlyph ++ " **CSV export**: \"Export prefixes from Branch Office 3 to CSV\"\n" ++
  "   " ++ bulletGlyph ++ " **Data analysis**: \"Analyze prefixes at Branch Office 3\"\n\n" ++
  "3. **Follow-up questions**: I maintain conversation context, so you can ask " ++
  "follow-up questions like:\n" ++
  "   " ++ bulletGlyph ++ " \"Show me that as a table\"\n" ++
  "   " ++ bulletGlyph ++ " \"Export that to CSV\"\n" ++
  "   " ++ bulletGlyph ++ " \"Analyze that data\"\n\n" ++
  "4. **Network information**: I can query Nautobot for network data and provide insights\n\n" ++
  "Just ask me about prefixes at a specific location and I" ++ apos ++
  "ll look it up for you!"

/-- `handle_general_conversation_simple` (llm_chat.py lines 450-490). -/
def handle_general_conversation_simple (message : String) (cits : List Json) : FbResult :=
  let ml := strToLower message
  let answer :=
    if anyWordIn ml ["hello", "hi", "hey", "greetings"] then greetingReply
    else if anyWordIn ml ["how are you", "how do you do", "are you ok"] then howAreYouReply
    else if anyWordIn ml ["thanks", "thank you", "appreciate"] then thanksReply
    else if anyWordIn ml ["bye", "goodbye", "see you", "later"] then byeReply
    else genericCapabilityReply
  { answer := answer, citations := cits, invocations := [] }

/-- `handle_help_request_simple` (llm_chat.py lines 493-515). -/
def handle_help_request_simple (cits : List Json) : FbResult :=
  { answer := helpReply, citations := cits, invocations := [] }

/-- llm_chat.py line 167: the gate keywords deciding whether the message
concerns the tools at all. -/
def networkContextWords : List String :=
  ["prefix", "network", "subnet", "ip", "location", "branch", "office", "hq",
   "dallas", "austin"]

/-- llm_chat.py line 173: follow-up indicator words. -/
def followUpIndicators : List String :=
  ["it", "them", "those", "this", "that", "the", "show", "give", "get", "as", "in",
   "can you", "please", "format", "put", "make", "provide"]

/-- `process_with_llm_intelligence` (llm_chat.py lines 158-193): the
Fallback Responder's fixed-priority decision tree over the lower-cased
message (all keyword tests are substring tests).  The `citations` list
the Python passes through the handlers starts empty. -/
def process_with_llm_intelligence (message : String) (history : List Turn)
    (clientOutcome : Except String (List Json)) : FbResult :=
  let ml := strToLower message
  if !anyWordIn ml networkContextWords then
    handle_general_conversation_simple message []
  else
    let is_follow_up := (!history.isEmpty) && anyWordIn ml followUpIndicators
    let history_text := joinWith " " (history.map (fun t => t.text))
    if is_follow_up && (!history.isEmpty) &&
        (strContains (strToLower history_text) ("prefix") ||
         strContains (strToLower history_text) ("network") ||
         strContains (strToLower history_text) ("branch office")) then
      handle_network_follow_up message history clientOutcome []
    else if anyWordIn ml ["prefix", "network", "subnet", "ip"] &&
        anyWordIn ml ["location", "branch", "office", "hq", "dallas", "austin"] then
      handle_network_query message history clientOutcome []
    else if anyWordIn ml ["help", "what can you do", "capabilities"] then
      handle_help_request_simple []
    else
      handle_general_conversation_simple message []

/-! ## Claims C5 and C4 (Fallback Responder side) -/

theorem mapPrefixItems_ok (l : List Json)
    (h : ∀ q ∈ l, ∃ s, q.getField ("prefix") = some (Json.str s)) :
    ∃ strs : List String, mapPrefixItems l = Except.ok strs := by
  induction l with
  | nil => exact ⟨[], rfl⟩
  | cons q qs ih =>
      obtain ⟨s, hs⟩ := h q (by simp)
      obtain ⟨strs, hstrs⟩ := ih (fun r hr => h r (by simp [hr]))
      refine ⟨s :: strs, ?_⟩
      simp [mapPrefixItems, prefixItemStr, hs, hstrs]

/-- The shared tool-call block, on a json-format call whose client
outcome is a non-empty list of prefix records that all carry a string
`prefix` field: exactly one invocation with the given location and
`"json"`, exactly one citation, and an answer that begins
`Found <N> prefixes at <location>.`. -/
theorem prefixToolCall_json_success (loc : String) (prefixes : List Json)
    (hne : prefixes ≠ [])
    (hwf : ∀ q ∈ prefixes, ∃ s, q.getField ("prefix") = some (Json.str s)) :
    (prefixToolCall loc ("json") (Except.ok prefixes) []).invocations = [(loc, "json")] ∧
    (prefixToolCall loc ("json") (Except.ok prefixes) []).citations.length = 1 ∧
    ∃ rest, (prefixToolCall loc ("json") (Except.ok prefixes) []).answer =
      "Found " ++ toString prefixes.length ++ " prefixes at " ++ loc ++ "." ++ rest := by
  cases prefixes with
  | nil => exact absurd rfl hne
  | cons p ps =>
      obtain ⟨strs, hstrs⟩ := mapPrefixItems_ok ((p :: ps).take 5)
        (fun q hq => hwf q (List.mem_of_mem_take hq))
      simp only [List.take_succ_cons] at hstrs
      have hres : get_prefixes_by_location loc ("json") (Except.ok (p :: ps)) =
          Json.obj [("success", Json.bool true),
            ("message", Json.str ("Found " ++ toString (p :: ps).length ++
              " prefixes at location " ++ apos ++ loc ++ apos)),
            ("count", Json.num (p :: ps).length),
            ("data", Json.arr (p :: ps))] := by
        simp [get_prefixes_by_location]
      have hanswer : buildPrefixAnswer
          (get_prefixes_by_location loc ("json") (Except.ok (p :: ps))) loc ("json") =
          Except.ok (("Found " ++ toString (p :: ps).length ++ " prefixes at " ++ loc ++
            ". " ++
            (if (p :: ps).length ≤ 5 then "All prefixes: " ++ joinWith ", " strs
             else "First 5 prefixes: " ++ joinWith ", " strs ++ "... (and " ++
               toString ((p :: ps).length - 5) ++ " more)")) ++ fmtOptionsSuffix) := by
        rw [hres]
        simp only [buildPrefixAnswer, jsonAnswer, summarySuffix,
          Json.pyGet, Json.getField, Json.pyItem, Json.truthy]
        simp [hstrs, List.find?, Except.bind]
      refine ⟨?_, ?_, ?_⟩
      · simp [prefixToolCall, hanswer]
      · simp [prefixToolCall, hanswer]
      · refine ⟨" " ++
          (if (p :: ps).length ≤ 5 then "All prefixes: " ++ joinWith ", " strs
           else "First 5 prefixes: " ++ joinWith ", " strs ++ "... (and " ++
             toString ((p :: ps).length - 5) ++ " more)") ++ fmtOptionsSuffix, ?_⟩
        simp only [prefixToolCall, hanswer]
        simp [String.append_assoc]
        rw [show ∀ X : String, "." ++ (" " ++ X) = ". " ++ X from fun X => by
          rw [← String.append_assoc]
          exact congrArg (fun y => y ++ X) (by decide)]

/-- C5 counterexample: same message, empty history, and a successful tool
report with zero prefixes (a location with no prefixes).  The tool
reports success (`success: true`, `count: 0`), the Fallback Responder
still extracts the location, resolves json and invokes the tool exactly
once — but the answer is the tool's "No prefixes found ..." message, not
one beginning "Found 0 prefixes at Branch Office 3.". -/
theorem c5_counterexample :
    (get_prefixes_by_location ("Branch Office 3") ("json") (Except.ok [])).pyGet
      ("success") Json.null = Json.bool true ∧
    (get_prefixes_by_location ("Branch Office 3") ("json") (Except.ok [])).pyGet
      ("count") Json.null = Json.num 0 ∧
    (process_with_llm_intelligence ("What prefixes are at Branch Office 3?") []
      (Except.ok [])).answer =
      "No prefixes found at location " ++ apos ++ "Branch Office 3" ++ apos ∧
    strStartsWith
      (process_with_llm_intelligence ("What prefixes are at Branch Office 3?") []
        (Except.ok [])).answer ("Found 0 prefixes at Branch Office 3.") = false ∧
    (process_with_llm_intelligence ("What prefixes are at Branch Office 3?") []
      (Except.ok [])).invocations = [("Branch Office 3", "json")] := by
  refine ⟨rfl, rfl, ?_, ?_, rfl⟩ <;> decide

/-- C5 (amended): for the message "What prefixes are at Branch Office 3?"
with empty history and no LLM configured, the Fallback Responder extracts
location "Branch Office 3", resolves format "json", invokes the prefixes
tool exactly once with those arguments and records exactly one
CitationRef; when the tool reports success with N >= 1 prefixes whose
records carry a (string) `prefix` field, the answer begins
"Found <N> prefixes at Branch Office 3."; with zero prefixes the answer
is the tool's "No prefixes found ..." message instead. -/
theorem c5_fallback_example_amended (prefixes : List Json)
    (hne : prefixes ≠ [])
    (hwf : ∀ q ∈ prefixes, ∃ s, q.getField ("prefix") = some (Json.str s)) :
    extract_location_name ("What prefixes are at Branch Office 3?") = "Branch Office 3" ∧
    handlePrefixFormat (strToLower ("What prefixes are at Branch Office 3?")) = "json" ∧
    (process_with_llm_intelligence ("What prefixes are at Branch Office 3?") []
      (Except.ok prefixes)).invocations = [("Branch Office 3", "json")] ∧
    (process_with_llm_intelligence ("What prefixes are at Branch Office 3?") []
      (Except.ok prefixes)).citations.length = 1 ∧
    ∃ rest, (process_with_llm_intelligence ("What prefixes are at Branch Office 3?") []
      (Except.ok prefixes)).answer =
      "Found " ++ toString prefixes.length ++ " prefixes at Branch Office 3." ++ rest := by
  have hstep : process_with_llm_intelligence ("What prefixes are at Branch Office 3?") []
      (Except.ok prefixes) =
      prefixToolCall ("Branch Office 3") ("json") (Except.ok prefixes) [] := rfl
  obtain ⟨h1, h2, h3⟩ := prefixToolCall_json_success ("Branch Office 3") prefixes hne hwf
  refine ⟨rfl, rfl, ?_, ?_, ?_⟩
  · rw [hstep]; exact h1
  · rw [hstep]; exact h2
  · rw [hstep]
    obtain ⟨rest, hrest⟩ := h3
    exact ⟨rest, by rw [hrest]; simp [String.append_assoc]⟩

/-- Witness for the amended C5 at two concrete prefix records. -/
theorem c5_fallback_example_amended_witness :
    (process_with_llm_intelligence ("What prefixes are at Branch Office 3?") []
      (Except.ok [Json.obj [("prefix", Json.str ("10.1.0.0/24"))],
                  Json.obj [("prefix", Json.str ("10.1.1.0/24"))]])).invocations =
      [("Branch Office 3", "json")] ∧
    ∃ rest, (process_with_llm_intelligence ("What prefixes are at Branch Office 3?") []
      (Except.ok [Json.obj [("prefix", Json.str ("10.1.0.0/24"))],
                  Json.obj [("prefix", Json.str ("10.1.1.0/24"))]])).answer =
      "Found 2 prefixes at Branch Office 3." ++ rest := by
  obtain ⟨_, _, h3, _, h5⟩ := c5_fallback_example_amended
    [Json.obj [("prefix", Json.str ("10.1.0.0/24"))],
     Json.obj [("prefix", Json.str ("10.1.1.0/24"))]]
    (by simp)
    (by
      intro q hq
      simp only [List.mem_cons, List.not_mem_nil, or_false] at hq
      rcases hq with h | h
      · exact ⟨"10.1.0.0/24", by rw [h]; rfl⟩
      · exact ⟨"10.1.1.0/24", by rw [h]; rfl⟩)
  exact ⟨h3, h5⟩

/-- C4 (amended): the two components treat failed tool calls differently.
In the Agent Loop, no CitationRef ever carries an `error` field — a
failed dispatch is recorded as an ordinary citation whose corresponding
`ToolInvocation` stores the error mapping as its result (see the
counterexample).  In the Fallback Responder, a tool invocation whose
answer construction raises yields, in addition to the ordinary citation
appended before the raise, a CitationRef carrying the error message, and
the assistant text reports the failure without raising. -/
theorem c4_error_citation_amended :
    (∀ (env : Env) (useOpenai : Bool) (h0 : List ToolInvocation),
       ∀ c ∈ (chatTurn env useOpenai h0).turn.citations, c.getField ("error") = none) ∧
    (∀ (loc fmt : String) (outcome : Except String (List Json))
       (cits0 : List Json) (e : String),
       buildPrefixAnswer (get_prefixes_by_location loc fmt outcome) loc fmt =
         Except.error e →
       (prefixToolCall loc fmt outcome cits0).answer =
         "Sorry, I encountered an error while looking up prefixes for " ++ loc ++
           ": " ++ e ∧
       (prefixToolCall loc fmt outcome cits0).citations.getLast? =
         some (fbErrorCitation loc fmt e) ∧
       (fbErrorCitation loc fmt e).getField ("error") = some (Json.str e)) := by
  constructor
  · intro env useOpenai h0 c hc
    obtain ⟨new, s1, s2, s3, s4, s5, s6⟩ := chatTurn_spec env useOpenai h0
    rw [s3, s2] at hc
    obtain ⟨inv, _, rfl⟩ := List.mem_map.mp hc
    simp [invCitation, Json.getField]
  · intro loc fmt outcome cits0 e he
    refine ⟨?_, ?_, ?_⟩
    · simp [prefixToolCall, he]
    · simp only [prefixToolCall, he]
      rw [List.getLast?_concat]
    · simp [fbErrorCitation, Json.getField]

/-- Witness for the amended C4: a prefix record without the `prefix` key
makes the json answer construction raise `KeyError('prefix')`; the
Fallback Responder reports the failure and appends the error citation. -/
theorem c4_error_citation_amended_witness :
    (prefixToolCall ("Branch Office 3") ("json") (Except.ok [Json.obj []]) []).answer =
      "Sorry, I encountered an error while looking up prefixes for Branch Office 3: " ++
        apos ++ "prefix" ++ apos ∧
    (prefixToolCall ("Branch Office 3") ("json")
        (Except.ok [Json.obj []]) []).citations.getLast? =
      some (fbErrorCitation ("Branch Office 3") ("json") (apos ++ "prefix" ++ apos)) := by
  have h := c4_error_citation_amended.2 ("Branch Office 3") ("json")
    (Except.ok [Json.obj []]) [] (apos ++ "prefix" ++ apos) (by rfl)
  exact ⟨h.1, h.2.1⟩

def c6DemoEntry : ToolInvocation :=
  { tool := "get_prefixes_by_location_enhanced"
    args := Json.obj [("location_name", Json.str ("Branch Office 3"))]
    result := Json.obj [("success", Json.bool true),
      ("data", Json.arr [Json.obj [("prefix", Json.str ("10.1.0.0/24"))]])]
    round := 1
    tool_index := 0 }

/-- Witness for C6: with a stored successful `get_prefixes_by_location_enhanced`
invocation for Branch Office 3 in the history, a csv-format citation's
enrichment is built from that stored result. -/
theorem c6_enrichment_reuse_witness :
    buildResponseData
        [Json.obj [("tool", Json.str ("get_prefixes_by_location_enhanced")),
                   ("args", Json.obj [("location_name", Json.str ("Branch Office 3")),
                                      ("format", Json.str ("csv"))])]]
        [c6DemoEntry]
      = respDataFromEntry (Json.str ("csv")) c6DemoEntry.result ∧
    (respDataFromEntry (Json.str ("csv")) c6DemoEntry.result).isSome = true :=
  c6_enrichment_reuse.2 [c6DemoEntry] c6DemoEntry ("csv")
    (Json.str ("Branch Office 3")) (Or.inl rfl) (by rfl) (by rfl)
